import Mathlib

/-! # Auth-Food-Delivery: authentication handlers

A shallow embedding of the authentication handlers
(`pkg/api/v1/handlers/auth_handlers.go`) and of the user repository
(`internal/user/user.go`).

The handlers talk to collaborators whose code lives in other packages
(database pool, Redis client, mailer, password hasher, JWT manager, request
binding).  Those are taken as parameters: `Deps σ` is a record of state
transformers over an arbitrary state `σ`, so every theorem below holds for
every behaviour the collaborators may show.  Each handler returns its HTTP
response together with the list of collaborator calls it made (in order) and
the final state.
-/

namespace AuthFoodDelivery

/-! ## Data model (`internal/models/models.go`) -/

/-- A `time.Time` value, kept abstract as a number. -/
abbrev Time := Int

/-- A `time.Duration`: a number of nanoseconds. -/
abbrev Duration := Nat

/-- The constant `time.Minute`. -/
def Minute : Duration := 60 * 1000000000

/-- The struct `models.User`. -/
structure User where
  ID : String
  Username : String
  Email : String
  PasswordHash : String
  FullName : String
  DateOfBirth : Time
  Status : String
  Role : String
  CreatedAt : Time
  UpdatedAt : Time
deriving DecidableEq, Repr, Inhabited

/-- The struct `models.UserUpdatePass`. -/
structure UserUpdatePass where
  Email : String
  PasswordHash : String
deriving DecidableEq, Repr, Inhabited

/-- The struct `models.UserUpdateStatus`. -/
structure UserUpdateStatus where
  Email : String
  Status : String
deriving DecidableEq, Repr, Inhabited

/-- The claims carried by a verified token (`auth.UserClaims`), as far as the
handlers read them. -/
structure Claims where
  UserID : String
  UserRole : String
deriving DecidableEq, Repr, Inhabited

/-- The struct `models.GetAllUsers`: the filter set of the user listing. -/
structure models.GetAllUsers where
  Email : String
  FullName : String
  Username : String
  Status : String
  Role : String
deriving DecidableEq, Repr, Inhabited

/-! ## HTTP boundary -/

/-- A response written with `c.JSON(status, gin.H ...)`: the status code and
the key/value pairs of the body. -/
structure Response where
  status : Nat
  body : List (String × String)
deriving DecidableEq, Repr, Inhabited

def StatusOK : Nat := 200
def StatusCreated : Nat := 201
def StatusBadRequest : Nat := 400
def StatusUnauthorized : Nat := 401
def StatusNotFound : Nat := 404
def StatusConflict : Nat := 409
def StatusInternalServerError : Nat := 500

/-- Body of the login request. -/
structure LoginInput where
  Email : String
  Password : String
deriving DecidableEq, Repr, Inhabited

/-- Body of the verify-otp request. -/
structure VerifyOTPInput where
  Email : String
  OTP : String
  Password : String
deriving DecidableEq, Repr, Inhabited

/-- Body of the forgot-password request. -/
structure ForgotPasswordInput where
  Email : String
deriving DecidableEq, Repr, Inhabited

/-- Body of the reset-password request. -/
structure ResetPasswordInput where
  Email : String
  OTP : String
  NewPassword : String
  ConfirmNewPassword : String
deriving DecidableEq, Repr, Inhabited

/-! ## Database boundary -/

/-- A value sent to or received from the database. -/
inductive Value where
  | str (s : String)
  | time (t : Time)
deriving DecidableEq, Repr, Inhabited

/-- Why a database call failed: the statement matched no row, or the store
could not be reached (connection refused, timeout), or anything else. -/
inductive DBError where
  | noRows
  | unavailable (msg : String)
  | other (msg : String)
deriving DecidableEq, Repr, Inhabited

/-- The text of the error (`err.Error()`). -/
def DBError.Error : DBError → String
  | .noRows => "no rows in result set"
  | .unavailable msg => msg
  | .other msg => msg

/-! ## Collaborator calls -/

/-- One call made to a collaborator, with what it returned where the handlers
look at it. -/
inductive Call where
  | QueryRow (query : String) (args : List Value) (err : Option DBError)
  | Query (query : String) (args : List Value) (err : Option DBError)
  | Exec (query : String) (args : List Value) (err : Option DBError)
  | NewUUID (id : String)
  | GetUserByEmail (email : String)
  | CreateUser (user : User)
  | UpdateUserPassword (user : UserUpdatePass)
  | UpdateUserStatus (user : UserUpdateStatus)
  | GetAllUsers (userReq : models.GetAllUsers)
  | HashPassword (password : String) (hash : String) (err : Option String)
  | CheckPasswordHash (password : String) (hash : String) (ok : Bool)
  | GenerateOTP (otp : String)
  | SaveOTP (email : String) (otp : String) (ttl : Duration) (err : Option String)
  | VerifyOTP (email : String) (otp : String) (isValid : Bool) (err : Option String)
  | SendOTP (email : String) (otp : String) (err : Option String)
  | Generate (user : User) (token : String) (err : Option String)
  | Verify (token : String) (err : Option String)
deriving DecidableEq, Repr

/-- The collaborators of the handlers, each a state transformer over the state
`σ` of the outside world.  A Go result pair `(v, err)` is a pair of a value
and an optional error text. -/
structure Deps (σ : Type) where
  /-- The call `pgxpool.Pool.QueryRow(ctx, query, args...)` followed by reading the row. -/
  QueryRow : String → List Value → σ → Except DBError (List Value) × σ
  /-- The call `pgxpool.Pool.Query(ctx, query, args...)` followed by reading all rows. -/
  Query : String → List Value → σ → Except DBError (List (List Value)) × σ
  /-- The call `pgxpool.Pool.Exec(ctx, query, args...)`. -/
  Exec : String → List Value → σ → Option DBError × σ
  /-- The call `uuid.New().String()`. -/
  NewUUID : σ → String × σ
  /-- The call `auth.HashPassword(password)`. -/
  HashPassword : String → σ → (String × Option String) × σ
  /-- The call `auth.CheckPasswordHash(password, hash)`. -/
  CheckPasswordHash : String → String → σ → Bool × σ
  /-- The call `auth.GenerateOTP()`. -/
  GenerateOTP : σ → String × σ
  /-- The call `redis.Client.SaveOTP(ctx, email, otp, ttl)`. -/
  SaveOTP : String → String → Duration → σ → Option String × σ
  /-- The call `redis.Client.VerifyOTP(ctx, email, otp)`. -/
  VerifyOTP : String → String → σ → (Bool × Option String) × σ
  /-- The call `email.SendOTP(cfg, email, otp)`. -/
  SendOTP : String → String → σ → Option String × σ
  /-- The call `auth.JWTManager.Generate(user)`. -/
  Generate : User → σ → (String × Option String) × σ
  /-- The call `auth.JWTManager.Verify(token)`. -/
  Verify : String → σ → (Claims × Option String) × σ

/-- What a repository function or a handler leaves behind: its result, the
calls it made, and the state of the outside world afterwards. -/
structure Res (σ : Type) (α : Type) where
  val : α
  trace : List Call
  state : σ

variable {σ : Type}

/-! ## User repository (`internal/user/user.go`) -/

/-- The statement of `UserRepo.CreateUser`. -/
def createUserQuery : String :=
  "\n\t\tINSERT INTO users (id, username, email, password_hash, full_name, date_of_birth, role, created_at, updated_at)\n\t\tVALUES ($1, $2, $3, $4, $5, $6, $7, NOW(), NOW())\n\t"

/-- The statement of `UserRepo.GetUserByEmail`. -/
def getUserByEmailQuery : String :=
  "\n\t\tSELECT id, username, email, password_hash, full_name, date_of_birth, satatus, role, created_at, updated_at\n\t\tFROM users\n\t\tWHERE email = $1\n\t"

/-- The statement of `UserRepo.UpdateUserPassword`. -/
def updateUserPasswordQuery : String :=
  "\n\t\tUPDATE users\n\t\tSET password_hash = $1, updated_at = NOW()\n\t\tWHERE email = $2\n\t"

/-- The `Scan` of `GetUserByEmail`: the ten columns of the row go, in order,
to `ID, Username, Email, PasswordHash, FullName, DateOfBirth, Status, Role,
CreatedAt, UpdatedAt`; a row of another shape is a scan error. -/
def scanUserByEmail (row : List Value) : Except String User :=
  match row with
  | [.str id, .str username, .str email, .str passwordHash, .str fullName, .time dateOfBirth,
      .str c7, .str c8, .time createdAt, .time updatedAt] =>
    .ok { ID := id, Username := username, Email := email, PasswordHash := passwordHash,
          FullName := fullName, DateOfBirth := dateOfBirth, Status := c7, Role := c8,
          CreatedAt := createdAt, UpdatedAt := updatedAt }
  | _ => .error "can not scan row"

/-- The arguments `CreateUser` hands to the `INSERT` statement, in order: the fresh
identifier, then the fields of the user. -/
def createUserArgs (id : String) (user : User) : List Value :=
  [.str id, .str user.Username, .str user.Email, .str user.PasswordHash, .str user.FullName,
    .time user.DateOfBirth, .str user.Role]

/-- The method `UserRepo.CreateUser`: gives the user a fresh ID and inserts it; the
result is the error, if any. -/
def CreateUser (d : Deps σ) (user : User) (s : σ) : Res σ (Option String) :=
  let u := d.NewUUID s
  let user1 := { user with ID := u.1 }
  let args := [Value.str user1.ID, .str user1.Username, .str user1.Email, .str user1.PasswordHash,
    .str user1.FullName, .time user1.DateOfBirth, .str user1.Role]
  let e := d.Exec createUserQuery args u.2
  let tr := [Call.CreateUser user, .NewUUID u.1, .Exec createUserQuery args e.1]
  match e.1 with
  | some err => ⟨some ("failed to create user: " ++ err.Error), tr, e.2⟩
  | none => ⟨none, tr, e.2⟩

/-- The method `UserRepo.GetUserByEmail`: every error of the query or of the scan is
wrapped and returned. -/
def GetUserByEmail (d : Deps σ) (email : String) (s : σ) : Res σ (Except String User) :=
  let q := d.QueryRow getUserByEmailQuery [.str email] s
  match q.1 with
  | .error err =>
    ⟨.error ("failed to get user by email: " ++ err.Error),
      [.GetUserByEmail email, .QueryRow getUserByEmailQuery [.str email] (some err)], q.2⟩
  | .ok row =>
    let tr := [Call.GetUserByEmail email, .QueryRow getUserByEmailQuery [.str email] none]
    match scanUserByEmail row with
    | .error err => ⟨.error ("failed to get user by email: " ++ err), tr, q.2⟩
    | .ok user => ⟨.ok user, tr, q.2⟩

/-- The method `UserRepo.UpdateUserPassword`. -/
def UpdateUserPassword (d : Deps σ) (user : UserUpdatePass) (s : σ) : Res σ (Option String) :=
  let args := [Value.str user.PasswordHash, .str user.Email]
  let e := d.Exec updateUserPasswordQuery args s
  let tr := [Call.UpdateUserPassword user, .Exec updateUserPasswordQuery args e.1]
  match e.1 with
  | some err => ⟨some ("failed to update user: " ++ err.Error), tr, e.2⟩
  | none => ⟨none, tr, e.2⟩

/-- The statement of `UserRepo.GetUserByID`. -/
def getUserByIDQuery : String :=
  "\n\t\tSELECT id, username, email, password_hash, full_name, date_of_birth, satus, role, created_at, updated_at\n\t\tFROM users\n\t\tWHERE id = $1\n\t"

/-- The `Scan` of `GetUserByID`: the ten columns of the row go, in order, to
`ID, Username, Email, PasswordHash, FullName, DateOfBirth, Status, Role, CreatedAt,
UpdatedAt`; a row of another shape is a scan error. -/
def scanUserByID (row : List Value) : Except String User :=
  match row with
  | [.str id, .str username, .str email, .str passwordHash, .str fullName, .time dateOfBirth,
      .str c7, .str c8, .time createdAt, .time updatedAt] =>
    .ok { ID := id, Username := username, Email := email, PasswordHash := passwordHash,
          FullName := fullName, DateOfBirth := dateOfBirth, Status := c7, Role := c8,
          CreatedAt := createdAt, UpdatedAt := updatedAt }
  | _ => .error "can not scan row"

/-- The statement of `UserRepo.GetAllUsers` before the filter is appended.  Its
select list is `id, username, email, password_hash, full_name, date_of_birth, status,
role, created_at, updated_at`. -/
def getAllUsersQuery : String :=
  "\n\t\tSELECT \n\t\t\tid, \n\t\t\tusername, \n\t\t\temail, \n\t\t\tpassword_hash, \n\t\t\tfull_name,\n\t\t\tdate_of_birth, \n\t\t\tstatus,\n\t\t\trole, \n\t\t\tcreated_at, \n\t\t\tupdated_at\n\t\tFROM \n\t\t\tusers\n\t\tWHERE\n\t\t\t1 = 1\n\t"

/-- The local variables `filter`, `args` and `count` of `GetAllUsers`. -/
structure FilterVars where
  filter : String
  args : List Value
  count : Nat
deriving DecidableEq, Repr, Inhabited

/-- The filter part of `UserRepo.GetAllUsers`: for each non-empty field, in the order
Email, FullName, Role, Status, Username, the condition is appended with the current
`count` as placeholder number (`fmt.Sprintf` with `$%d`), then `count` is
incremented and the pattern is appended to `args`. -/
def getAllUsersFilter (userReq : models.GetAllUsers) : FilterVars :=
  let v0 : FilterVars := { filter := "", args := [], count := 0 }
  let v1 : FilterVars :=
    if userReq.Email ≠ "" then
      { filter := v0.filter ++ (" AND email ILIKE $" ++ toString v0.count),
        count := v0.count + 1,
        args := v0.args ++ [Value.str ("%" ++ userReq.Email ++ "%")] }
    else v0
  let v2 : FilterVars :=
    if userReq.FullName ≠ "" then
      { filter := v1.filter ++ (" AND full_name ILIKE $" ++ toString v1.count),
        count := v1.count + 1,
        args := v1.args ++ [Value.str ("%" ++ userReq.FullName ++ "%")] }
    else v1
  let v3 : FilterVars :=
    if userReq.Role ≠ "" then
      { filter := v2.filter ++ (" AND role ILIKE $" ++ toString v2.count),
        count := v2.count + 1,
        args := v2.args ++ [Value.str ("%" ++ userReq.Role ++ "%")] }
    else v2
  let v4 : FilterVars :=
    if userReq.Status ≠ "" then
      { filter := v3.filter ++ (" AND status ILIKE $" ++ toString v3.count),
        count := v3.count + 1,
        args := v3.args ++ [Value.str ("%" ++ userReq.Status ++ "%")] }
    else v3
  if userReq.Username ≠ "" then
    { filter := v4.filter ++ (" AND username ILIKE $" ++ toString v4.count),
      count := v4.count + 1,
      args := v4.args ++ [Value.str ("%" ++ userReq.Username ++ "%")] }
  else v4

/-- The `Scan` of `GetAllUsers`: the ten columns of the row go, in order, to
`ID, Username, Email, PasswordHash, FullName, DateOfBirth, Role, Status, CreatedAt,
UpdatedAt`; a row of another shape is a scan error. -/
def scanGetAllUsers (row : List Value) : Except String User :=
  match row with
  | [.str id, .str username, .str email, .str passwordHash, .str fullName, .time dateOfBirth,
      .str c7, .str c8, .time createdAt, .time updatedAt] =>
    .ok { ID := id, Username := username, Email := email, PasswordHash := passwordHash,
          FullName := fullName, DateOfBirth := dateOfBirth, Role := c7, Status := c8,
          CreatedAt := createdAt, UpdatedAt := updatedAt }
  | _ => .error "can not scan row"

/-- The loop `for rows.Next()` of `GetAllUsers`: each row is scanned and appended;
the first scan error ends the function. -/
def scanAllRows : List (List Value) → Except String (List User)
  | [] => .ok []
  | row :: rows =>
    match scanGetAllUsers row with
    | .error err => .error ("failed to scan user row: " ++ err)
    | .ok user =>
      match scanAllRows rows with
      | .error err => .error err
      | .ok users => .ok (user :: users)

/-- The method `UserRepo.GetAllUsers`. -/
def GetAllUsers (d : Deps σ) (userReq : models.GetAllUsers) (s : σ) :
    Res σ (Except String (List User)) :=
  let v := getAllUsersFilter userReq
  let query := getAllUsersQuery ++ v.filter
  let q := d.Query query v.args s
  match q.1 with
  | .error err =>
    ⟨.error ("failed to get all users: " ++ err.Error),
      [.GetAllUsers userReq, .Query query v.args (some err)], q.2⟩
  | .ok rows =>
    ⟨scanAllRows rows, [.GetAllUsers userReq, .Query query v.args none], q.2⟩

/-! ## Handlers (`pkg/api/v1/handlers/auth_handlers.go`)

The argument `req` is what `c.ShouldBindJSON(&input)` gives: the binding error
or the bound input. -/

/-- The handler `AuthHandler.Register`. -/
def Register (d : Deps σ) (req : Except String User) (s : σ) : Res σ Response :=
  match req with
  | .error err => ⟨⟨StatusBadRequest, [("error", err)]⟩, [], s⟩
  | .ok input =>
    let g := GetUserByEmail d input.Email s
    match g.val with
    | .ok _ =>
      ⟨⟨StatusConflict, [("error", "User with this email already exists")]⟩, g.trace, g.state⟩
    | .error _ =>
      let h := d.HashPassword input.PasswordHash g.state
      let t1 := g.trace ++ [Call.HashPassword input.PasswordHash h.1.1 h.1.2]
      match h.1.2 with
      | some _ =>
        ⟨⟨StatusInternalServerError, [("error", "Failed to hash password")]⟩, t1, h.2⟩
      | none =>
        let input1 := { input with PasswordHash := h.1.1 }
        let o := d.GenerateOTP h.2
        let sv := d.SaveOTP input1.Email o.1 (5 * Minute) o.2
        let t2 := t1 ++ [Call.GenerateOTP o.1, .SaveOTP input1.Email o.1 (5 * Minute) sv.1]
        match sv.1 with
        | some _ =>
          ⟨⟨StatusInternalServerError, [("error", "Failed to save OTP")]⟩, t2, sv.2⟩
        | none =>
          let m := d.SendOTP input1.Email o.1 sv.2
          let t3 := t2 ++ [Call.SendOTP input1.Email o.1 m.1]
          match m.1 with
          | some err =>
            ⟨⟨StatusInternalServerError, [("error", "Failed to send OTP email" ++ err)]⟩, t3, m.2⟩
          | none =>
            let input2 := { input1 with PasswordHash := "" }
            let c := CreateUser d input2 m.2
            match c.val with
            | some _ =>
              ⟨⟨StatusInternalServerError, [("error", "Failed to create user")]⟩,
                t3 ++ c.trace, c.state⟩
            | none =>
              ⟨⟨StatusCreated,
                  [("message", "User registered successfully. Please verify your email.")]⟩,
                t3 ++ c.trace, c.state⟩

/-- The handler `AuthHandler.VerifyOTP`. -/
def VerifyOTP (d : Deps σ) (req : Except String VerifyOTPInput) (s : σ) : Res σ Response :=
  match req with
  | .error err => ⟨⟨StatusBadRequest, [("error", err)]⟩, [], s⟩
  | .ok input =>
    let v := d.VerifyOTP input.Email input.OTP s
    let t1 := [Call.VerifyOTP input.Email input.OTP v.1.1 v.1.2]
    match v.1.2 with
    | some _ => ⟨⟨StatusInternalServerError, [("error", "Failed to verify OTP")]⟩, t1, v.2⟩
    | none =>
      if v.1.1 = false then
        ⟨⟨StatusUnauthorized, [("error", "Invalid OTP")]⟩, t1, v.2⟩
      else
        let h := d.HashPassword input.Password v.2
        let t2 := t1 ++ [Call.HashPassword input.Password h.1.1 h.1.2]
        match h.1.2 with
        | some _ =>
          ⟨⟨StatusInternalServerError, [("error", "Failed to hash password")]⟩, t2, h.2⟩
        | none =>
          let u := UpdateUserPassword d { Email := input.Email, PasswordHash := h.1.1 } h.2
          match u.val with
          | some _ =>
            ⟨⟨StatusInternalServerError, [("error", "Failed to update user")]⟩,
              t2 ++ u.trace, u.state⟩
          | none =>
            ⟨⟨StatusOK, [("message", "OTP verified successfully")]⟩, t2 ++ u.trace, u.state⟩

/-- The handler `AuthHandler.Login`. -/
def Login (d : Deps σ) (req : Except String LoginInput) (s : σ) : Res σ Response :=
  match req with
  | .error err => ⟨⟨StatusBadRequest, [("error", err)]⟩, [], s⟩
  | .ok input =>
    let g := GetUserByEmail d input.Email s
    match g.val with
    | .error _ =>
      ⟨⟨StatusUnauthorized, [("error", "Invalid email or password")]⟩, g.trace, g.state⟩
    | .ok user =>
      if user.Role = "courier" ∧ user.Status ≠ "approved" then
        ⟨⟨StatusUnauthorized, [("error", "Your account should have been approved.")]⟩,
          g.trace, g.state⟩
      else
        let c := d.CheckPasswordHash input.Password user.PasswordHash g.state
        let t1 := g.trace ++ [Call.CheckPasswordHash input.Password user.PasswordHash c.1]
        if c.1 = false then
          ⟨⟨StatusUnauthorized, [("error", "Invalid email or password")]⟩, t1, c.2⟩
        else
          let t := d.Generate user c.2
          let t2 := t1 ++ [Call.Generate user t.1.1 t.1.2]
          match t.1.2 with
          | some _ =>
            ⟨⟨StatusInternalServerError, [("error", "Failed to generate token")]⟩, t2, t.2⟩
          | none => ⟨⟨StatusOK, [("token", t.1.1)]⟩, t2, t.2⟩

/-- The handler `AuthHandler.ForgotPassword`. -/
def ForgotPassword (d : Deps σ) (req : Except String ForgotPasswordInput) (s : σ) :
    Res σ Response :=
  match req with
  | .error err => ⟨⟨StatusBadRequest, [("error", "Error while binding email" ++ err)]⟩, [], s⟩
  | .ok input =>
    let g := GetUserByEmail d input.Email s
    match g.val with
    | .error _ => ⟨⟨StatusNotFound, [("error", "User not found")]⟩, g.trace, g.state⟩
    | .ok _ =>
      let o := d.GenerateOTP g.state
      let sv := d.SaveOTP input.Email o.1 (15 * Minute) o.2
      let t1 := g.trace ++ [Call.GenerateOTP o.1, .SaveOTP input.Email o.1 (15 * Minute) sv.1]
      match sv.1 with
      | some _ => ⟨⟨StatusInternalServerError, [("error", "Failed to save OTP")]⟩, t1, sv.2⟩
      | none =>
        let m := d.SendOTP input.Email o.1 sv.2
        let t2 := t1 ++ [Call.SendOTP input.Email o.1 m.1]
        match m.1 with
        | some _ =>
          ⟨⟨StatusInternalServerError, [("error", "Failed to send OTP email")]⟩, t2, m.2⟩
        | none =>
          ⟨⟨StatusOK, [("message", "Password reset OTP sent to your email.")]⟩, t2, m.2⟩

/-- The handler `AuthHandler.ResetPassword`. -/
def ResetPassword (d : Deps σ) (req : Except String ResetPasswordInput) (s : σ) :
    Res σ Response :=
  match req with
  | .error err => ⟨⟨StatusBadRequest, [("error", err)]⟩, [], s⟩
  | .ok input =>
    let v := d.VerifyOTP input.Email input.OTP s
    let t1 := [Call.VerifyOTP input.Email input.OTP v.1.1 v.1.2]
    match v.1.2 with
    | some _ => ⟨⟨StatusInternalServerError, [("error", "Failed to verify OTP")]⟩, t1, v.2⟩
    | none =>
      if v.1.1 = false then
        ⟨⟨StatusUnauthorized, [("error", "Invalid OTP")]⟩, t1, v.2⟩
      else
        let h := d.HashPassword input.NewPassword v.2
        let t2 := t1 ++ [Call.HashPassword input.NewPassword h.1.1 h.1.2]
        match h.1.2 with
        | some _ =>
          ⟨⟨StatusInternalServerError, [("error", "Failed to hash password")]⟩, t2, h.2⟩
        | none =>
          let u := UpdateUserPassword d { Email := input.Email, PasswordHash := h.1.1 } h.2
          match u.val with
          | some _ =>
            ⟨⟨StatusInternalServerError, [("error", "Failed to update password")]⟩,
              t2 ++ u.trace, u.state⟩
          | none =>
            ⟨⟨StatusOK, [("message", "Password reset successfully")]⟩, t2 ++ u.trace, u.state⟩

/-- The function `strings.HasPrefix`: `s` is at least as long as `pre` and starts with
it.  Strings are sequences of characters here; the only prefix the handlers use is
plain ASCII, for which characters and bytes agree. -/
def HasPrefix (s pre : String) : Bool :=
  decide (pre.length ≤ s.length) && (s.data.take pre.length == pre.data)

/-- The function `strings.TrimPrefix`: `s` without the leading `pre`, or `s` itself
when it does not start with `pre`. -/
def TrimPrefix (s pre : String) : String :=
  if HasPrefix s pre then ⟨s.data.drop pre.length⟩ else s

/-- The handler `AuthHandler.Validate`; `authHeader` is the value of the
`Authorization` header, empty when the header is absent. -/
def Validate (d : Deps σ) (authHeader : String) (s : σ) : Res σ Response :=
  if authHeader = "" ∨ ¬ HasPrefix authHeader "Bearer " then
    ⟨⟨StatusUnauthorized, [("error", "Authorization header required")]⟩, [], s⟩
  else
    let tokenString := TrimPrefix authHeader "Bearer "
    let v := d.Verify tokenString s
    let t1 := [Call.Verify tokenString v.1.2]
    match v.1.2 with
    | some _ => ⟨⟨StatusUnauthorized, [("error", "Invalid token")]⟩, t1, v.2⟩
    | none => ⟨⟨StatusOK, [("id", v.1.1.UserID), ("role", v.1.1.UserRole)]⟩, t1, v.2⟩

/-! ## An in-memory outside world

A concrete instance of the collaborators, used to run the handlers on concrete
requests: account rows, live one-time codes, and sent mail are lists, and each
dependency can be switched off to make its calls fail. -/

/-- A live one-time code: the key, the code, and the time to live it was stored with. -/
structure OTPRecord where
  email : String
  otp : String
  ttl : Duration
deriving DecidableEq, Repr, Inhabited

/-- The state of the in-memory outside world. -/
structure World where
  /-- The rows of the `users` table. -/
  users : List User
  /-- The live records of the expiring key-value store. -/
  otps : List OTPRecord
  /-- The mails sent so far: address and code. -/
  outbox : List (String × String)
  /-- The tokens the token service accepts, with their claims. -/
  tokens : List (String × Claims)
  /-- The identifiers `uuid.New` will hand out. -/
  ids : List String
  /-- The codes `GenerateOTP` will hand out. -/
  codes : List String
  /-- The database can not be reached. -/
  dbDown : Bool
  /-- The key-value store can not be reached. -/
  kvDown : Bool
  /-- The mail server can not be reached. -/
  mailDown : Bool
  /-- Hashing fails. -/
  hasherDown : Bool
  /-- Token signing fails. -/
  signerDown : Bool
deriving DecidableEq, Repr, Inhabited

/-- The row the database returns for an account. -/
def userRow (u : User) : List Value :=
  [.str u.ID, .str u.Username, .str u.Email, .str u.PasswordHash, .str u.FullName,
    .time u.DateOfBirth, .str u.Status, .str u.Role, .time u.CreatedAt, .time u.UpdatedAt]

/-- The in-memory database answering `QueryRow`: it knows the statement of
`GetUserByEmail` and returns the first account with that email. -/
def worldQueryRow (query : String) (args : List Value) (w : World) :
    Except DBError (List Value) × World :=
  if w.dbDown then (.error (.unavailable "dial tcp: connection refused"), w)
  else if query = getUserByEmailQuery then
    match args with
    | [.str email] =>
      match w.users.find? (fun u => u.Email == email) with
      | some u => (.ok (userRow u), w)
      | none => (.error .noRows, w)
    | _ => (.error (.other "wrong number of arguments"), w)
  else (.error (.other "unknown statement"), w)

/-- The in-memory database answering `Exec`: it knows the statements of
`CreateUser` and `UpdateUserPassword`. -/
def worldExec (query : String) (args : List Value) (w : World) : Option DBError × World :=
  if w.dbDown then (some (.unavailable "dial tcp: connection refused"), w)
  else if query = createUserQuery then
    match args with
    | [.str id, .str username, .str email, .str passwordHash, .str fullName, .time dateOfBirth,
        .str role] =>
      let row : User :=
        { ID := id, Username := username, Email := email, PasswordHash := passwordHash,
          FullName := fullName, DateOfBirth := dateOfBirth, Status := "", Role := role,
          CreatedAt := 0, UpdatedAt := 0 }
      (none, { w with users := w.users ++ [row] })
    | _ => (some (.other "wrong number of arguments"), w)
  else if query = updateUserPasswordQuery then
    match args with
    | [.str passwordHash, .str email] =>
      (none, { w with users := w.users.map (fun u =>
        if u.Email = email then { u with PasswordHash := passwordHash } else u) })
    | _ => (some (.other "wrong number of arguments"), w)
  else (some (.other "unknown statement"), w)

/-- The in-memory database answering `Query`: it knows the statement of `GetAllUsers`
without filter and returns every account, one row each. -/
def worldQuery (query : String) (args : List Value) (w : World) :
    Except DBError (List (List Value)) × World :=
  if w.dbDown then (.error (.unavailable "dial tcp: connection refused"), w)
  else if query = getAllUsersQuery then
    match args with
    | [] => (.ok (w.users.map userRow), w)
    | _ => (.error (.other "wrong number of arguments"), w)
  else (.error (.other "unknown statement"), w)

/-- The collaborators of the in-memory outside world. -/
def worldDeps : Deps World where
  QueryRow := worldQueryRow
  Query := worldQuery
  Exec := worldExec
  NewUUID := fun w => (w.ids.headD "", { w with ids := w.ids.tail })
  HashPassword := fun password w =>
    if w.hasherDown then (("", some "hashing failed"), w)
    else (("hash:" ++ password, none), w)
  CheckPasswordHash := fun password hash w => (decide (hash = "hash:" ++ password), w)
  GenerateOTP := fun w => (w.codes.headD "000000", { w with codes := w.codes.tail })
  SaveOTP := fun email otp ttl w =>
    if w.kvDown then (some "redis: connection refused", w)
    else (none, { w with otps := ⟨email, otp, ttl⟩ :: w.otps.filter (fun r => r.email != email) })
  VerifyOTP := fun email otp w =>
    if w.kvDown then ((false, some "redis: connection refused"), w)
    else if w.otps.any (fun r => r.email == email && r.otp == otp) then
      ((true, none), { w with otps := w.otps.filter (fun r => r.email != email) })
    else ((false, none), w)
  SendOTP := fun email otp w =>
    if w.mailDown then (some "smtp: connection refused", w)
    else (none, { w with outbox := w.outbox ++ [(email, otp)] })
  Generate := fun user w =>
    if w.signerDown then (("", some "signing failed"), w)
    else (("token:" ++ user.ID, none), w)
  Verify := fun token w =>
    match w.tokens.find? (fun t => t.1 == token) with
    | some t => ((t.2, none), w)
    | none => ((⟨"", ""⟩, some "invalid token"), w)

/-- An empty world in which every dependency works. -/
def world0 : World :=
  { users := [], otps := [], outbox := [], tokens := [], ids := ["id-1", "id-2"],
    codes := ["123456", "654321"], dbDown := false, kvDown := false, mailDown := false,
    hasherDown := false, signerDown := false }

/-- A standard account with a verified credential. -/
def alice : User :=
  { ID := "id-a", Username := "alice", Email := "a@x.com", PasswordHash := "hash:secret1",
    FullName := "Alice", DateOfBirth := 0, Status := "", Role := "standard",
    CreatedAt := 0, UpdatedAt := 0 }

/-- A courier account with a verified credential, not yet approved. -/
def bob : User :=
  { ID := "id-b", Username := "bob", Email := "b@x.com", PasswordHash := "hash:secret1",
    FullName := "Bob", DateOfBirth := 0, Status := "pending_approval", Role := "courier",
    CreatedAt := 0, UpdatedAt := 0 }

/-- A world with the accounts `alice` and `bob`. -/
def world1 : World := { world0 with users := [alice, bob] }

/-- A new registrant, as the request binding delivers it. -/
def carol : User :=
  { ID := "", Username := "carol", Email := "c@x.com", PasswordHash := "", FullName := "Carol",
    DateOfBirth := 0, Status := "", Role := "standard", CreatedAt := 0, UpdatedAt := 0 }

/-- The world `world1` with a live registration code for `alice`. -/
def world2 : World := { world1 with otps := [⟨"a@x.com", "123456", 5 * Minute⟩] }

/-- The world `world1` whose token service accepts the token `tok-a` of `alice`. -/
def world3 : World := { world1 with tokens := [("tok-a", ⟨"id-a", "standard"⟩)] }

/-! # Theorems -/

/-! ## Facts about the repository functions -/

/-- The calls `GetUserByEmail` makes: itself and one `QueryRow`. -/
theorem GetUserByEmail_trace (d : Deps σ) (email : String) (s : σ) :
    ∃ err, (GetUserByEmail d email s).trace =
      [Call.GetUserByEmail email, Call.QueryRow getUserByEmailQuery [Value.str email] err] := by
  unfold GetUserByEmail
  cases hq : (d.QueryRow getUserByEmailQuery [Value.str email] s).1 with
  | error e => exact ⟨some e, by simp [hq]⟩
  | ok row =>
    refine ⟨none, ?_⟩
    cases hscan : scanUserByEmail row <;> simp [hq, hscan]

/-- Every failure of the query is returned by `GetUserByEmail` as an error, whatever its cause. -/
theorem GetUserByEmail_query_error (d : Deps σ) (email : String) (s : σ) (e : DBError)
    (h : (d.QueryRow getUserByEmailQuery [Value.str email] s).1 = .error e) :
    (GetUserByEmail d email s).val = .error ("failed to get user by email: " ++ e.Error) := by
  unfold GetUserByEmail
  simp [h]

/-! ## Login -/

/-- C1: when the email of a login request resolves to an account whose role is
`courier` and whose status is not `approved`, Login answers 401 and makes no call
to token generation, whatever the supplied password. -/
theorem Login_courier_gate (d : Deps σ) (input : LoginInput) (s : σ) (user : User)
    (hlookup : (GetUserByEmail d input.Email s).val = .ok user)
    (hrole : user.Role = "courier") (hstatus : user.Status ≠ "approved") :
    (Login d (.ok input) s).val.status = 401 ∧
    ∀ u token err, Call.Generate u token err ∉ (Login d (.ok input) s).trace := by
  obtain ⟨qerr, htr⟩ := GetUserByEmail_trace d input.Email s
  have hrun : Login d (.ok input) s =
      ⟨⟨StatusUnauthorized, [("error", "Your account should have been approved.")]⟩,
        (GetUserByEmail d input.Email s).trace, (GetUserByEmail d input.Email s).state⟩ := by
    simp [Login, hlookup, hrole, hstatus]
  rw [hrun]
  refine ⟨rfl, ?_⟩
  intro u token err
  simp [htr]

/-- The courier `bob`, not yet approved, logs in with his correct password: 401, and
no token is generated. -/
theorem Login_courier_gate_witness :
    (GetUserByEmail worldDeps "b@x.com" world1).val = .ok bob ∧
    (worldDeps.CheckPasswordHash "secret1" bob.PasswordHash world1).1 = true ∧
    (Login worldDeps (.ok ⟨"b@x.com", "secret1"⟩) world1).val.status = 401 ∧
    ∀ u token err,
      Call.Generate u token err ∉ (Login worldDeps (.ok ⟨"b@x.com", "secret1"⟩) world1).trace :=
  ⟨rfl, by decide,
    Login_courier_gate worldDeps ⟨"b@x.com", "secret1"⟩ world1 bob rfl (by decide)
      (by decide)⟩

/-- C2: for a well-formed login request, Login answers 200 exactly when the lookup by
the supplied email succeeded, the account is not an unapproved courier, the password
check against the stored hash of that account is true, and token generation for
that account succeeded; the body then carries the generated token.  When the lookup
succeeded, the account is not an unapproved courier and the password check is false,
the answer is 401 and token generation is not called. -/
theorem Login_success_iff (d : Deps σ) (input : LoginInput) (s : σ) :
    ((Login d (.ok input) s).val.status = 200 ↔
      ∃ user, (GetUserByEmail d input.Email s).val = .ok user ∧
        ¬ (user.Role = "courier" ∧ user.Status ≠ "approved") ∧
        (d.CheckPasswordHash input.Password user.PasswordHash
          (GetUserByEmail d input.Email s).state).1 = true ∧
        (d.Generate user (d.CheckPasswordHash input.Password user.PasswordHash
          (GetUserByEmail d input.Email s).state).2).1.2 = none) ∧
    (∀ user, (GetUserByEmail d input.Email s).val = .ok user →
      ¬ (user.Role = "courier" ∧ user.Status ≠ "approved") →
      (d.CheckPasswordHash input.Password user.PasswordHash
          (GetUserByEmail d input.Email s).state).1 = true →
      (d.Generate user (d.CheckPasswordHash input.Password user.PasswordHash
          (GetUserByEmail d input.Email s).state).2).1.2 = none →
      (Login d (.ok input) s).val = ⟨200, [("token",
        (d.Generate user (d.CheckPasswordHash input.Password user.PasswordHash
          (GetUserByEmail d input.Email s).state).2).1.1)]⟩) ∧
    (∀ user, (GetUserByEmail d input.Email s).val = .ok user →
      ¬ (user.Role = "courier" ∧ user.Status ≠ "approved") →
      (d.CheckPasswordHash input.Password user.PasswordHash
          (GetUserByEmail d input.Email s).state).1 = false →
      (Login d (.ok input) s).val = ⟨401, [("error", "Invalid email or password")]⟩ ∧
      ∀ u token err, Call.Generate u token err ∉ (Login d (.ok input) s).trace) := by
  obtain ⟨qerr, htr⟩ := GetUserByEmail_trace d input.Email s
  refine ⟨?_, ?_, ?_⟩
  · cases hlookup : (GetUserByEmail d input.Email s).val with
    | error e => simp [Login, hlookup, StatusUnauthorized]
    | ok user =>
      by_cases hgate : user.Role = "courier" ∧ user.Status ≠ "approved"
      · simp [Login, hlookup, hgate, StatusUnauthorized]
      · cases hpw : (d.CheckPasswordHash input.Password user.PasswordHash
            (GetUserByEmail d input.Email s).state).1
        · simp [Login, hlookup, hgate, hpw, StatusUnauthorized]
        · cases hgen : (d.Generate user (d.CheckPasswordHash input.Password user.PasswordHash
              (GetUserByEmail d input.Email s).state).2).1.2
          · have hgate2 : user.Role = "courier" → user.Status = "approved" := by
              simpa using hgate
            simp [Login, hlookup, hgate, hpw, hgen, StatusOK]
            exact hgate2
          · simp [Login, hlookup, hgate, hpw, hgen, StatusInternalServerError]
  · intro user hlookup hgate hpw hgen
    simp [Login, hlookup, hgate, hpw, hgen, StatusOK]
  · intro user hlookup hgate hpw
    refine ⟨by simp [Login, hlookup, hgate, hpw, StatusUnauthorized], ?_⟩
    intro u token err
    simp [Login, hlookup, hgate, hpw, htr]

/-- The account `alice` logs in with her password and gets a token; with a wrong
password she gets 401. -/
theorem Login_success_iff_witness :
    (Login worldDeps (.ok ⟨"a@x.com", "secret1"⟩) world1).val =
      ⟨200, [("token", "token:id-a")]⟩ ∧
    (Login worldDeps (.ok ⟨"a@x.com", "wrong"⟩) world1).val =
      ⟨401, [("error", "Invalid email or password")]⟩ :=
  ⟨(Login_success_iff worldDeps ⟨"a@x.com", "secret1"⟩ world1).2.1 alice rfl (by decide)
      (by decide) (by decide),
    ((Login_success_iff worldDeps ⟨"a@x.com", "wrong"⟩ world1).2.2 alice rfl (by decide)
      (by decide)).1⟩

/-- C3, as the code has it: when the email has no account (the lookup fails) Login
answers 401 with the body `Invalid email or password`; when the account is a courier
whose status is not `approved` it answers 401 with the body `Your account should have
been approved.`  The status codes agree, the bodies differ. -/
theorem Login_refusals (d : Deps σ) (input1 input2 : LoginInput) (s1 s2 : σ) (e : String)
    (user : User)
    (hnone : (GetUserByEmail d input1.Email s1).val = .error e)
    (hlookup : (GetUserByEmail d input2.Email s2).val = .ok user)
    (hrole : user.Role = "courier") (hstatus : user.Status ≠ "approved") :
    (Login d (.ok input1) s1).val = ⟨401, [("error", "Invalid email or password")]⟩ ∧
    (Login d (.ok input2) s2).val =
      ⟨401, [("error", "Your account should have been approved.")]⟩ ∧
    (Login d (.ok input1) s1).val.status = (Login d (.ok input2) s2).val.status ∧
    (Login d (.ok input1) s1).val.body ≠ (Login d (.ok input2) s2).val.body := by
  have h1 : (Login d (.ok input1) s1).val = ⟨401, [("error", "Invalid email or password")]⟩ := by
    simp [Login, hnone, StatusUnauthorized]
  have h2 : (Login d (.ok input2) s2).val =
      ⟨401, [("error", "Your account should have been approved.")]⟩ := by
    simp [Login, hlookup, hrole, hstatus, StatusUnauthorized]
  refine ⟨h1, h2, ?_, ?_⟩
  · rw [h1, h2]
  · rw [h1, h2]; decide

/-- The two refusals in the in-memory world: `c@x.com` has no account, `bob` is an
unapproved courier. -/
theorem Login_refusals_witness :
    (Login worldDeps (.ok ⟨"c@x.com", "secret1"⟩) world1).val =
      ⟨401, [("error", "Invalid email or password")]⟩ ∧
    (Login worldDeps (.ok ⟨"b@x.com", "secret1"⟩) world1).val =
      ⟨401, [("error", "Your account should have been approved.")]⟩ ∧
    (Login worldDeps (.ok ⟨"c@x.com", "secret1"⟩) world1).val.status =
      (Login worldDeps (.ok ⟨"b@x.com", "secret1"⟩) world1).val.status ∧
    (Login worldDeps (.ok ⟨"c@x.com", "secret1"⟩) world1).val.body ≠
      (Login worldDeps (.ok ⟨"b@x.com", "secret1"⟩) world1).val.body :=
  Login_refusals worldDeps ⟨"c@x.com", "secret1"⟩ ⟨"b@x.com", "secret1"⟩ world1 world1
    "failed to get user by email: no rows in result set" bob rfl rfl (by decide) (by decide)

/-- C3 fails as stated: `c@x.com` has no account (the query finds no row), `b@x.com` is
a courier whose status is not `approved`, and Login gives the two requests different
responses. -/
theorem Login_refuses_uniformly_counterexample :
    (worldDeps.QueryRow getUserByEmailQuery [Value.str "c@x.com"] world1).1 = .error .noRows ∧
    (GetUserByEmail worldDeps "b@x.com" world1).val = .ok bob ∧
    bob.Role = "courier" ∧ bob.Status ≠ "approved" ∧
    (Login worldDeps (.ok ⟨"c@x.com", "secret1"⟩) world1).val ≠
      (Login worldDeps (.ok ⟨"b@x.com", "secret1"⟩) world1).val :=
  ⟨rfl, rfl, by decide, by decide, by decide⟩

/-- C4, as the code has it: in Login every failure of the account lookup gives
the 401 `Invalid email or password` response, whatever its cause: no row for the
email, or a store that could not be reached or timed out. -/
theorem Login_lookup_failure (d : Deps σ) (input : LoginInput) (s : σ) (e : DBError)
    (hquery : (d.QueryRow getUserByEmailQuery [Value.str input.Email] s).1 = .error e) :
    (GetUserByEmail d input.Email s).val =
      .error ("failed to get user by email: " ++ e.Error) ∧
    (Login d (.ok input) s).val = ⟨401, [("error", "Invalid email or password")]⟩ := by
  have hlookup := GetUserByEmail_query_error d input.Email s e hquery
  exact ⟨hlookup, by simp [Login, hlookup, StatusUnauthorized]⟩

/-- With the database switched off, the lookup of `alice` fails as unavailable and
Login answers 401. -/
theorem Login_lookup_failure_witness :
    (GetUserByEmail worldDeps "a@x.com" { world1 with dbDown := true }).val =
      .error ("failed to get user by email: " ++
        (DBError.unavailable "dial tcp: connection refused").Error) ∧
    (Login worldDeps (.ok ⟨"a@x.com", "secret1"⟩) { world1 with dbDown := true }).val =
      ⟨401, [("error", "Invalid email or password")]⟩ :=
  Login_lookup_failure worldDeps ⟨"a@x.com", "secret1"⟩ { world1 with dbDown := true }
    (.unavailable "dial tcp: connection refused") rfl

/-- C4 fails as stated: the account `alice` exists and her password is right, the
database can not be reached, and Login answers with the 401 `Invalid email or
password` outcome. -/
theorem Login_store_unreachable_counterexample :
    (worldDeps.QueryRow getUserByEmailQuery [Value.str "a@x.com"]
      { world1 with dbDown := true }).1 =
        .error (.unavailable "dial tcp: connection refused") ∧
    (Login worldDeps (.ok ⟨"a@x.com", "secret1"⟩) { world1 with dbDown := true }).val =
      ⟨401, [("error", "Invalid email or password")]⟩ ∧
    (Login worldDeps (.ok ⟨"a@x.com", "secret1"⟩) world1).val =
      ⟨200, [("token", "token:id-a")]⟩ :=
  ⟨rfl, by decide, by decide⟩

/-! ## Register -/

/-- The calls `CreateUser` makes, and its result: it fails exactly when `Exec` does. -/
theorem CreateUser_trace (d : Deps σ) (user : User) (s : σ) :
    ∃ id err, (CreateUser d user s).trace =
        [Call.CreateUser user, Call.NewUUID id, Call.Exec createUserQuery (createUserArgs id user) err] ∧
      ((CreateUser d user s).val = none ↔ err = none) := by
  refine ⟨(d.NewUUID s).1, (d.Exec createUserQuery (createUserArgs (d.NewUUID s).1 user)
    (d.NewUUID s).2).1, ?_, ?_⟩
  · unfold CreateUser createUserArgs
    simp only []
    split <;> rfl
  · unfold CreateUser createUserArgs
    simp only []
    split <;> simp_all

/-- The runs of Register on a well-formed request: the seven ways it can end,
each with its response and the calls made. -/
theorem Register_cases (d : Deps σ) (input : User) (s : σ) :
    ∃ qerr,
      ((Register d (.ok input) s).val = ⟨409, [("error", "User with this email already exists")]⟩ ∧
        (Register d (.ok input) s).trace =
          [Call.GetUserByEmail input.Email,
            Call.QueryRow getUserByEmailQuery [Value.str input.Email] qerr]) ∨
      ∃ hash, (∃ msg,
        (Register d (.ok input) s).val = ⟨500, [("error", "Failed to hash password")]⟩ ∧
        (Register d (.ok input) s).trace =
          [Call.GetUserByEmail input.Email,
            Call.QueryRow getUserByEmailQuery [Value.str input.Email] qerr,
            Call.HashPassword input.PasswordHash hash (some msg)]) ∨
      ∃ otp, (∃ msg,
        (Register d (.ok input) s).val = ⟨500, [("error", "Failed to save OTP")]⟩ ∧
        (Register d (.ok input) s).trace =
          [Call.GetUserByEmail input.Email,
            Call.QueryRow getUserByEmailQuery [Value.str input.Email] qerr,
            Call.HashPassword input.PasswordHash hash none, Call.GenerateOTP otp,
            Call.SaveOTP input.Email otp (5 * Minute) (some msg)]) ∨
      (∃ msg,
        (Register d (.ok input) s).val =
          ⟨500, [("error", "Failed to send OTP email" ++ msg)]⟩ ∧
        (Register d (.ok input) s).trace =
          [Call.GetUserByEmail input.Email,
            Call.QueryRow getUserByEmailQuery [Value.str input.Email] qerr,
            Call.HashPassword input.PasswordHash hash none, Call.GenerateOTP otp,
            Call.SaveOTP input.Email otp (5 * Minute) none,
            Call.SendOTP input.Email otp (some msg)]) ∨
      ∃ id, (∃ e,
        (Register d (.ok input) s).val = ⟨500, [("error", "Failed to create user")]⟩ ∧
        (Register d (.ok input) s).trace =
          [Call.GetUserByEmail input.Email,
            Call.QueryRow getUserByEmailQuery [Value.str input.Email] qerr,
            Call.HashPassword input.PasswordHash hash none, Call.GenerateOTP otp,
            Call.SaveOTP input.Email otp (5 * Minute) none,
            Call.SendOTP input.Email otp none,
            Call.CreateUser { input with PasswordHash := "" }, Call.NewUUID id,
            Call.Exec createUserQuery (createUserArgs id { input with PasswordHash := "" })
              (some e)]) ∨
      ((Register d (.ok input) s).val =
          ⟨201, [("message", "User registered successfully. Please verify your email.")]⟩ ∧
        (Register d (.ok input) s).trace =
          [Call.GetUserByEmail input.Email,
            Call.QueryRow getUserByEmailQuery [Value.str input.Email] qerr,
            Call.HashPassword input.PasswordHash hash none, Call.GenerateOTP otp,
            Call.SaveOTP input.Email otp (5 * Minute) none,
            Call.SendOTP input.Email otp none,
            Call.CreateUser { input with PasswordHash := "" }, Call.NewUUID id,
            Call.Exec createUserQuery (createUserArgs id { input with PasswordHash := "" })
              none]) := by
  obtain ⟨qerr, htr⟩ := GetUserByEmail_trace d input.Email s
  refine ⟨qerr, ?_⟩
  cases hlookup : (GetUserByEmail d input.Email s).val with
  | ok user => left; simp [Register, hlookup, htr, StatusConflict]
  | error e =>
    right
    refine ⟨(d.HashPassword input.PasswordHash (GetUserByEmail d input.Email s).state).1.1, ?_⟩
    cases hhash : (d.HashPassword input.PasswordHash (GetUserByEmail d input.Email s).state).1.2 with
    | some msg =>
      left
      exact ⟨msg, by simp [Register, hlookup, hhash, htr, StatusInternalServerError]⟩
    | none =>
      right
      refine ⟨(d.GenerateOTP (d.HashPassword input.PasswordHash (GetUserByEmail d input.Email s).state).2).1, ?_⟩
      cases hsave : (d.SaveOTP input.Email (d.GenerateOTP (d.HashPassword input.PasswordHash (GetUserByEmail d input.Email s).state).2).1 (5 * Minute) (d.GenerateOTP (d.HashPassword input.PasswordHash (GetUserByEmail d input.Email s).state).2).2).1 with
      | some msg =>
        left
        exact ⟨msg, by simp [Register, hlookup, hhash, hsave, htr, StatusInternalServerError]⟩
      | none =>
        right
        cases hsend : (d.SendOTP input.Email (d.GenerateOTP (d.HashPassword input.PasswordHash (GetUserByEmail d input.Email s).state).2).1 (d.SaveOTP input.Email (d.GenerateOTP (d.HashPassword input.PasswordHash (GetUserByEmail d input.Email s).state).2).1 (5 * Minute) (d.GenerateOTP (d.HashPassword input.PasswordHash (GetUserByEmail d input.Email s).state).2).2).2).1 with
        | some msg =>
          left
          exact ⟨msg, by
            simp [Register, hlookup, hhash, hsave, hsend, htr, StatusInternalServerError]⟩
        | none =>
          right
          obtain ⟨id, err, hctr, hcval⟩ := CreateUser_trace d { input with PasswordHash := "" } (d.SendOTP input.Email (d.GenerateOTP (d.HashPassword input.PasswordHash (GetUserByEmail d input.Email s).state).2).1 (d.SaveOTP input.Email (d.GenerateOTP (d.HashPassword input.PasswordHash (GetUserByEmail d input.Email s).state).2).1 (5 * Minute) (d.GenerateOTP (d.HashPassword input.PasswordHash (GetUserByEmail d input.Email s).state).2).2).2).2
          refine ⟨id, ?_⟩
          cases hcreate : (CreateUser d { input with PasswordHash := "" } (d.SendOTP input.Email (d.GenerateOTP (d.HashPassword input.PasswordHash (GetUserByEmail d input.Email s).state).2).1 (d.SaveOTP input.Email (d.GenerateOTP (d.HashPassword input.PasswordHash (GetUserByEmail d input.Email s).state).2).1 (5 * Minute) (d.GenerateOTP (d.HashPassword input.PasswordHash (GetUserByEmail d input.Email s).state).2).2).2).2).val with
          | some msg =>
            left
            cases err with
            | none => simp [hcreate] at hcval
            | some e =>
              exact ⟨e, by
                simp [Register, hlookup, hhash, hsave, hsend, hcreate, htr, hctr,
                  StatusInternalServerError]⟩
          | none =>
            right
            have herr : err = none := hcval.1 hcreate
            subst herr
            simp [Register, hlookup, hhash, hsave, hsend, hcreate, htr, hctr, StatusCreated]

/-- C5: when the email of a well-formed register request already has an account
(the lookup by email succeeds), Register answers 409 and saves no OTP, sends no
email and creates no account: the only calls are those of the lookup, and the
state is the one the lookup left. -/
theorem Register_duplicate_conflict (d : Deps σ) (input : User) (s : σ) (user : User)
    (hlookup : (GetUserByEmail d input.Email s).val = .ok user) :
    (Register d (.ok input) s).val =
      ⟨409, [("error", "User with this email already exists")]⟩ ∧
    (∀ e o t r, Call.SaveOTP e o t r ∉ (Register d (.ok input) s).trace) ∧
    (∀ e o r, Call.SendOTP e o r ∉ (Register d (.ok input) s).trace) ∧
    (∀ u, Call.CreateUser u ∉ (Register d (.ok input) s).trace) ∧
    (∀ q a r, Call.Exec q a r ∉ (Register d (.ok input) s).trace) ∧
    (Register d (.ok input) s).state = (GetUserByEmail d input.Email s).state := by
  obtain ⟨qerr, htr⟩ := GetUserByEmail_trace d input.Email s
  have hrun : Register d (.ok input) s =
      ⟨⟨StatusConflict, [("error", "User with this email already exists")]⟩,
        (GetUserByEmail d input.Email s).trace, (GetUserByEmail d input.Email s).state⟩ := by
    simp [Register, hlookup]
  rw [hrun]
  simp [htr, StatusConflict]

/-- A second registration with the email of `alice`: 409, and the world is unchanged. -/
theorem Register_duplicate_conflict_witness :
    (Register worldDeps (.ok { bob with Email := "a@x.com" }) world1).val =
      ⟨409, [("error", "User with this email already exists")]⟩ ∧
    (Register worldDeps (.ok { bob with Email := "a@x.com" }) world1).state = world1 :=
  have h := Register_duplicate_conflict worldDeps { bob with Email := "a@x.com" } world1 alice rfl
  ⟨h.1, h.2.2.2.2.2⟩

/-- C6: on every request on which Register calls the create operation of the
account store, the record passed has an empty `PasswordHash`, and the `INSERT` that
`CreateUser` executes gets the empty string as its fourth argument (`password_hash`),
whatever the request carried and whatever the hasher returned. -/
theorem Register_empty_credential (d : Deps σ) (req : Except String User) (s : σ) :
    (∀ u, Call.CreateUser u ∈ (Register d req s).trace → u.PasswordHash = "") ∧
    (∀ q args err, Call.Exec q args err ∈ (Register d req s).trace →
      q = createUserQuery ∧ args[3]? = some (Value.str "")) := by
  cases req with
  | error e => simp [Register]
  | ok input =>
    rcases Register_cases d input s with ⟨qerr, ⟨hv, ht⟩ | ⟨hash, ⟨msg, hv, ht⟩ |
      ⟨otp, ⟨msg, hv, ht⟩ | ⟨msg, hv, ht⟩ | ⟨id, ⟨e, hv, ht⟩ | ⟨hv, ht⟩⟩⟩⟩⟩
    all_goals
      rw [ht]
      refine ⟨?_, ?_⟩
      · intro u hu
        simp at hu
        try (subst hu; rfl)
      · intro q args err hq
        simp at hq
        try (obtain ⟨rfl, rfl, _⟩ := hq; exact ⟨rfl, rfl⟩)

set_option maxRecDepth 10000 in
/-- A registration whose request carries a non-empty `PasswordHash`: the record handed
to the create operation has it empty. -/
theorem Register_empty_credential_witness :
    ({ carol with PasswordHash := "secret3" } : User).PasswordHash ≠ "" ∧
    Call.CreateUser { carol with PasswordHash := "" } ∈
      (Register worldDeps (.ok { carol with PasswordHash := "secret3" }) world1).trace ∧
    ({ carol with PasswordHash := "" } : User).PasswordHash = "" :=
  ⟨by decide, by decide,
    (Register_empty_credential worldDeps (.ok { carol with PasswordHash := "secret3" }) world1).1
      { carol with PasswordHash := "" } (by decide)⟩

/-- C7: when saving the OTP or sending the OTP email returns an error, Register
answers 500 and never calls the create operation of the account store; and whenever
it does call the create operation, the OTP save and the email dispatch for the same
email and code came right before it and both succeeded. -/
theorem Register_dispatch_failure (d : Deps σ) (req : Except String User) (s : σ) :
    (((∃ e o t msg, Call.SaveOTP e o t (some msg) ∈ (Register d req s).trace) ∨
        (∃ e o msg, Call.SendOTP e o (some msg) ∈ (Register d req s).trace)) →
      (Register d req s).val.status = 500 ∧
      (∀ u, Call.CreateUser u ∉ (Register d req s).trace) ∧
      (∀ q a r, Call.Exec q a r ∉ (Register d req s).trace)) ∧
    (∀ u, Call.CreateUser u ∈ (Register d req s).trace →
      ∃ pre email otp post, (Register d req s).trace =
        pre ++ [Call.SaveOTP email otp (5 * Minute) none, Call.SendOTP email otp none,
          Call.CreateUser u] ++ post) := by
  cases req with
  | error e => simp [Register]
  | ok input =>
    rcases Register_cases d input s with ⟨qerr, ⟨hv, ht⟩ | ⟨hash, ⟨msg, hv, ht⟩ |
      ⟨otp, ⟨msg, hv, ht⟩ | ⟨msg, hv, ht⟩ | ⟨id, ⟨e, hv, ht⟩ | ⟨hv, ht⟩⟩⟩⟩⟩
    · rw [ht, hv]; simp
    · rw [ht, hv]; simp
    · rw [ht, hv]; simp
    · rw [ht, hv]; simp
    · rw [ht, hv]
      refine ⟨by simp, ?_⟩
      intro u hu
      simp at hu
      subst hu
      exact ⟨[Call.GetUserByEmail input.Email,
        Call.QueryRow getUserByEmailQuery [Value.str input.Email] qerr,
        Call.HashPassword input.PasswordHash hash none, Call.GenerateOTP otp], input.Email, otp,
        [Call.NewUUID id, Call.Exec createUserQuery
          (createUserArgs id { input with PasswordHash := "" }) (some e)], by simp⟩
    · rw [ht, hv]
      refine ⟨by simp, ?_⟩
      intro u hu
      simp at hu
      subst hu
      exact ⟨[Call.GetUserByEmail input.Email,
        Call.QueryRow getUserByEmailQuery [Value.str input.Email] qerr,
        Call.HashPassword input.PasswordHash hash none, Call.GenerateOTP otp], input.Email, otp,
        [Call.NewUUID id, Call.Exec createUserQuery
          (createUserArgs id { input with PasswordHash := "" }) none], by simp⟩

set_option maxRecDepth 10000 in
/-- The mail server is down while `carol` registers: 500, and the create operation is
not called. -/
theorem Register_dispatch_failure_witness :
    Call.SendOTP "c@x.com" "123456" (some "smtp: connection refused") ∈
      (Register worldDeps (.ok carol) { world1 with mailDown := true }).trace ∧
    (Register worldDeps (.ok carol) { world1 with mailDown := true }).val.status = 500 ∧
    (∀ u, Call.CreateUser u ∉
      (Register worldDeps (.ok carol) { world1 with mailDown := true }).trace) ∧
    (∀ q a r, Call.Exec q a r ∉
      (Register worldDeps (.ok carol) { world1 with mailDown := true }).trace) :=
  ⟨by decide,
    (Register_dispatch_failure worldDeps (.ok carol) { world1 with mailDown := true }).1
      (Or.inr ⟨"c@x.com", "123456", "smtp: connection refused", by decide⟩)⟩

/-- The text of the dispatch failure differs from the text of every other failure of
Register, whatever the error of the mailer. -/
theorem send_failure_text_ne (msg x : String) (hx : x.data.take 12 ≠ "Failed to se".data) :
    "Failed to send OTP email" ++ msg ≠ x := by
  intro h
  apply hx
  rw [← h, String.data_append, List.take_append_of_le_length (by decide)]
  decide

/-- C8, as the code has it: when Register answers with a failure, no account
has been inserted (the create operation was not called, or its `INSERT` returned an
error), and a binding failure makes no call and leaves the world untouched.  Nothing
is undone: an OTP has been saved by this call exactly when the failure is that of the
email dispatch or of the account creation, and an OTP email has been sent exactly
when the failure is that of the account creation.  On a dispatch failure the save of
the code had succeeded, the failed dispatch is the last call, and the final world is
the one the save left, passed through the failed dispatch only.  On a creation failure
the save and the dispatch had both succeeded, the failed `INSERT` is the last call,
and the final world is the one they left, passed through the failed creation only. -/
theorem Register_failure_effects (d : Deps σ) (req : Except String User) (s : σ)
    (hfail : (Register d req s).val.status ≠ 201) :
    (∀ q a, Call.Exec q a none ∉ (Register d req s).trace) ∧
    (∀ e, req = .error e → (Register d req s).trace = [] ∧ (Register d req s).state = s) ∧
    ((∃ e o t, Call.SaveOTP e o t none ∈ (Register d req s).trace) ↔
      ((Register d req s).val = ⟨500, [("error", "Failed to create user")]⟩ ∨
        ∃ msg, (Register d req s).val =
          ⟨500, [("error", "Failed to send OTP email" ++ msg)]⟩)) ∧
    ((∃ e o, Call.SendOTP e o none ∈ (Register d req s).trace) ↔
      (Register d req s).val = ⟨500, [("error", "Failed to create user")]⟩) ∧
    ((∃ msg, (Register d req s).val = ⟨500, [("error", "Failed to send OTP email" ++ msg)]⟩) →
      ∃ input pre otp s1 s2 msg, req = .ok input ∧
        d.SaveOTP input.Email otp (5 * Minute) s1 = (none, s2) ∧
        (d.SendOTP input.Email otp s2).1 = some msg ∧
        (Register d req s).state = (d.SendOTP input.Email otp s2).2 ∧
        (Register d req s).trace =
          pre ++ [Call.SaveOTP input.Email otp (5 * Minute) none,
            Call.SendOTP input.Email otp (some msg)]) ∧
    ((Register d req s).val = ⟨500, [("error", "Failed to create user")]⟩ →
      ∃ input pre otp s1 s2 s3 id e, req = .ok input ∧
        d.SaveOTP input.Email otp (5 * Minute) s1 = (none, s2) ∧
        d.SendOTP input.Email otp s2 = (none, s3) ∧
        (CreateUser d { input with PasswordHash := "" } s3).val ≠ none ∧
        (Register d req s).state = (CreateUser d { input with PasswordHash := "" } s3).state ∧
        (Register d req s).trace =
          pre ++ [Call.SaveOTP input.Email otp (5 * Minute) none,
            Call.SendOTP input.Email otp none,
            Call.CreateUser { input with PasswordHash := "" }, Call.NewUUID id,
            Call.Exec createUserQuery (createUserArgs id { input with PasswordHash := "" }) (some e)]) := by
  have hs1 : ∀ msg, ¬ ("Failed to hash password" = "Failed to send OTP email" ++ msg) :=
    fun msg h => send_failure_text_ne msg _ (by decide) h.symm
  have hs2 : ∀ msg, ¬ ("Failed to save OTP" = "Failed to send OTP email" ++ msg) :=
    fun msg h => send_failure_text_ne msg _ (by decide) h.symm
  have hs3 : ∀ msg, ¬ ("Failed to create user" = "Failed to send OTP email" ++ msg) :=
    fun msg h => send_failure_text_ne msg _ (by decide) h.symm
  have hs4 : ∀ msg, ¬ ("Failed to send OTP email" ++ msg = "Failed to create user") :=
    fun msg h => send_failure_text_ne msg _ (by decide) h
  cases req with
  | error e => simp [Register, StatusBadRequest]
  | ok input =>
    obtain ⟨qerr, htr⟩ := GetUserByEmail_trace d input.Email s
    cases hlookup : (GetUserByEmail d input.Email s).val with
    | ok user => simp [Register, hlookup, htr, StatusConflict]
    | error lerr =>
      cases hhash : (d.HashPassword input.PasswordHash (GetUserByEmail d input.Email s).state).1.2 with
      | some msg =>
        simp [Register, hlookup, hhash, htr, StatusInternalServerError, hs1]
      | none =>
        cases hsave : (d.SaveOTP input.Email (d.GenerateOTP (d.HashPassword input.PasswordHash (GetUserByEmail d input.Email s).state).2).1 (5 * Minute) (d.GenerateOTP (d.HashPassword input.PasswordHash (GetUserByEmail d input.Email s).state).2).2).1 with
        | some msg =>
          simp [Register, hlookup, hhash, hsave, htr, StatusInternalServerError, hs2]
        | none =>
          cases hsend : (d.SendOTP input.Email (d.GenerateOTP (d.HashPassword input.PasswordHash (GetUserByEmail d input.Email s).state).2).1 (d.SaveOTP input.Email (d.GenerateOTP (d.HashPassword input.PasswordHash (GetUserByEmail d input.Email s).state).2).1 (5 * Minute) (d.GenerateOTP (d.HashPassword input.PasswordHash (GetUserByEmail d input.Email s).state).2).2).2).1 with
          | some msg =>
            have hrun : Register d (.ok input) s =
                ⟨⟨500, [("error", "Failed to send OTP email" ++ msg)]⟩,
                  [Call.GetUserByEmail input.Email,
                    Call.QueryRow getUserByEmailQuery [Value.str input.Email] qerr,
                    Call.HashPassword input.PasswordHash (d.HashPassword input.PasswordHash (GetUserByEmail d input.Email s).state).1.1 none,
                    Call.GenerateOTP (d.GenerateOTP (d.HashPassword input.PasswordHash (GetUserByEmail d input.Email s).state).2).1,
                    Call.SaveOTP input.Email (d.GenerateOTP (d.HashPassword input.PasswordHash (GetUserByEmail d input.Email s).state).2).1 (5 * Minute) none,
                    Call.SendOTP input.Email (d.GenerateOTP (d.HashPassword input.PasswordHash (GetUserByEmail d input.Email s).state).2).1 (some msg)],
                  (d.SendOTP input.Email (d.GenerateOTP (d.HashPassword input.PasswordHash (GetUserByEmail d input.Email s).state).2).1 (d.SaveOTP input.Email (d.GenerateOTP (d.HashPassword input.PasswordHash (GetUserByEmail d input.Email s).state).2).1 (5 * Minute) (d.GenerateOTP (d.HashPassword input.PasswordHash (GetUserByEmail d input.Email s).state).2).2).2).2⟩ := by
              simp [Register, hlookup, hhash, hsave, hsend, htr, StatusInternalServerError]
            rw [hrun]
            refine ⟨by simp, by simp, ?_, ?_, ?_, ?_⟩
            · exact ⟨fun _ => Or.inr ⟨msg, rfl⟩,
                fun _ => ⟨input.Email, (d.GenerateOTP (d.HashPassword input.PasswordHash (GetUserByEmail d input.Email s).state).2).1, 5 * Minute, by simp⟩⟩
            · simp [hs4]
            · intro _
              exact ⟨input, [Call.GetUserByEmail input.Email,
                  Call.QueryRow getUserByEmailQuery [Value.str input.Email] qerr,
                  Call.HashPassword input.PasswordHash (d.HashPassword input.PasswordHash (GetUserByEmail d input.Email s).state).1.1 none,
                  Call.GenerateOTP (d.GenerateOTP (d.HashPassword input.PasswordHash (GetUserByEmail d input.Email s).state).2).1],
                (d.GenerateOTP (d.HashPassword input.PasswordHash (GetUserByEmail d input.Email s).state).2).1, (d.GenerateOTP (d.HashPassword input.PasswordHash (GetUserByEmail d input.Email s).state).2).2, (d.SaveOTP input.Email (d.GenerateOTP (d.HashPassword input.PasswordHash (GetUserByEmail d input.Email s).state).2).1 (5 * Minute) (d.GenerateOTP (d.HashPassword input.PasswordHash (GetUserByEmail d input.Email s).state).2).2).2, msg, rfl, Prod.ext hsave rfl, hsend, rfl, by simp⟩
            · intro h
              simp [hs4] at h
          | none =>
            obtain ⟨id, err, hctr, hcval⟩ := CreateUser_trace d { input with PasswordHash := "" } (d.SendOTP input.Email (d.GenerateOTP (d.HashPassword input.PasswordHash (GetUserByEmail d input.Email s).state).2).1 (d.SaveOTP input.Email (d.GenerateOTP (d.HashPassword input.PasswordHash (GetUserByEmail d input.Email s).state).2).1 (5 * Minute) (d.GenerateOTP (d.HashPassword input.PasswordHash (GetUserByEmail d input.Email s).state).2).2).2).2
            cases hcreate : (CreateUser d { input with PasswordHash := "" } (d.SendOTP input.Email (d.GenerateOTP (d.HashPassword input.PasswordHash (GetUserByEmail d input.Email s).state).2).1 (d.SaveOTP input.Email (d.GenerateOTP (d.HashPassword input.PasswordHash (GetUserByEmail d input.Email s).state).2).1 (5 * Minute) (d.GenerateOTP (d.HashPassword input.PasswordHash (GetUserByEmail d input.Email s).state).2).2).2).2).val with
            | none =>
              have hst : (Register d (.ok input) s).val.status = 201 := by
                simp [Register, hlookup, hhash, hsave, hsend, hcreate, StatusCreated]
              exact absurd hst hfail
            | some cmsg =>
              cases err with
              | none => simp [hcreate] at hcval
              | some e =>
                have hrun : Register d (.ok input) s =
                    ⟨⟨500, [("error", "Failed to create user")]⟩,
                      [Call.GetUserByEmail input.Email,
                        Call.QueryRow getUserByEmailQuery [Value.str input.Email] qerr,
                        Call.HashPassword input.PasswordHash (d.HashPassword input.PasswordHash (GetUserByEmail d input.Email s).state).1.1 none,
                        Call.GenerateOTP (d.GenerateOTP (d.HashPassword input.PasswordHash (GetUserByEmail d input.Email s).state).2).1,
                        Call.SaveOTP input.Email (d.GenerateOTP (d.HashPassword input.PasswordHash (GetUserByEmail d input.Email s).state).2).1 (5 * Minute) none,
                        Call.SendOTP input.Email (d.GenerateOTP (d.HashPassword input.PasswordHash (GetUserByEmail d input.Email s).state).2).1 none,
                        Call.CreateUser { input with PasswordHash := "" }, Call.NewUUID id,
                        Call.Exec createUserQuery (createUserArgs id { input with PasswordHash := "" }) (some e)],
                      (CreateUser d { input with PasswordHash := "" } (d.SendOTP input.Email (d.GenerateOTP (d.HashPassword input.PasswordHash (GetUserByEmail d input.Email s).state).2).1 (d.SaveOTP input.Email (d.GenerateOTP (d.HashPassword input.PasswordHash (GetUserByEmail d input.Email s).state).2).1 (5 * Minute) (d.GenerateOTP (d.HashPassword input.PasswordHash (GetUserByEmail d input.Email s).state).2).2).2).2).state⟩ := by
                  simp [Register, hlookup, hhash, hsave, hsend, hcreate, htr, hctr,
                    StatusInternalServerError]
                rw [hrun]
                refine ⟨by simp, by simp, ?_, ?_, ?_, ?_⟩
                · exact ⟨fun _ => Or.inl rfl,
                    fun _ => ⟨input.Email, (d.GenerateOTP (d.HashPassword input.PasswordHash (GetUserByEmail d input.Email s).state).2).1, 5 * Minute, by simp⟩⟩
                · exact ⟨fun _ => rfl, fun _ => ⟨input.Email, (d.GenerateOTP (d.HashPassword input.PasswordHash (GetUserByEmail d input.Email s).state).2).1, by simp⟩⟩
                · intro h
                  simp [hs3] at h
                · intro _
                  exact ⟨input, [Call.GetUserByEmail input.Email,
                      Call.QueryRow getUserByEmailQuery [Value.str input.Email] qerr,
                      Call.HashPassword input.PasswordHash (d.HashPassword input.PasswordHash (GetUserByEmail d input.Email s).state).1.1 none,
                      Call.GenerateOTP (d.GenerateOTP (d.HashPassword input.PasswordHash (GetUserByEmail d input.Email s).state).2).1],
                    (d.GenerateOTP (d.HashPassword input.PasswordHash (GetUserByEmail d input.Email s).state).2).1, (d.GenerateOTP (d.HashPassword input.PasswordHash (GetUserByEmail d input.Email s).state).2).2, (d.SaveOTP input.Email (d.GenerateOTP (d.HashPassword input.PasswordHash (GetUserByEmail d input.Email s).state).2).1 (5 * Minute) (d.GenerateOTP (d.HashPassword input.PasswordHash (GetUserByEmail d input.Email s).state).2).2).2, (d.SendOTP input.Email (d.GenerateOTP (d.HashPassword input.PasswordHash (GetUserByEmail d input.Email s).state).2).1 (d.SaveOTP input.Email (d.GenerateOTP (d.HashPassword input.PasswordHash (GetUserByEmail d input.Email s).state).2).1 (5 * Minute) (d.GenerateOTP (d.HashPassword input.PasswordHash (GetUserByEmail d input.Email s).state).2).2).2).2, id, e, rfl, Prod.ext hsave rfl,
                    Prod.ext hsend rfl, by simp [hcreate], rfl, by simp⟩

set_option maxRecDepth 10000 in
/-- The database is down while `carol` registers: the lookup fails, the flow goes on,
and the failure is that of the account creation, after the code was saved and the
email sent; with the mail server down the code was saved before the dispatch failed. -/
theorem Register_failure_effects_witness :
    (Register worldDeps (.ok carol) { world1 with dbDown := true }).val =
      ⟨500, [("error", "Failed to create user")]⟩ ∧
    (∀ q a, Call.Exec q a none ∉
      (Register worldDeps (.ok carol) { world1 with dbDown := true }).trace) ∧
    (∃ e o t, Call.SaveOTP e o t none ∈
      (Register worldDeps (.ok carol) { world1 with mailDown := true }).trace) ∧
    (Register worldDeps (.ok carol) { world1 with dbDown := true }).state.users = world1.users :=
  ⟨((Register_failure_effects worldDeps (.ok carol) { world1 with dbDown := true }
      (by decide)).2.2.2.1.1 ⟨"c@x.com", "123456", by decide⟩),
    (Register_failure_effects worldDeps (.ok carol) { world1 with dbDown := true }
      (by decide)).1,
    (Register_failure_effects worldDeps (.ok carol) { world1 with mailDown := true }
      (by decide)).2.2.1.2 (Or.inr ⟨"smtp: connection refused", by decide⟩),
    by decide⟩

/-- C8 fails as stated.  With the mail server down, Register answers 500 and the code
it saved stays live in the OTP store, which was empty before.  With the database
down, Register answers 500 after it saved the code and sent the email. -/
theorem Register_atomic_counterexample :
    ((Register worldDeps (.ok carol) { world1 with mailDown := true }).val =
        ⟨500, [("error", "Failed to send OTP emailsmtp: connection refused")]⟩ ∧
      world1.otps = [] ∧
      (Register worldDeps (.ok carol) { world1 with mailDown := true }).state.otps =
        [⟨"c@x.com", "123456", 5 * Minute⟩]) ∧
    ((Register worldDeps (.ok carol) { world1 with dbDown := true }).val =
        ⟨500, [("error", "Failed to create user")]⟩ ∧
      world1.outbox = [] ∧
      (Register worldDeps (.ok carol) { world1 with dbDown := true }).state.otps =
        [⟨"c@x.com", "123456", 5 * Minute⟩] ∧
      (Register worldDeps (.ok carol) { world1 with dbDown := true }).state.outbox =
        [("c@x.com", "123456")]) :=
  ⟨⟨by decide, by decide, by decide⟩, ⟨by decide, by decide, by decide, by decide⟩⟩

/-! ## VerifyOTP and ResetPassword -/

/-- The calls `UpdateUserPassword` makes: itself and one `Exec` with the hash and the email. -/
theorem UpdateUserPassword_trace (d : Deps σ) (user : UserUpdatePass) (s : σ) :
    ∃ err, (UpdateUserPassword d user s).trace =
      [Call.UpdateUserPassword user,
        Call.Exec updateUserPasswordQuery [Value.str user.PasswordHash, Value.str user.Email] err] := by
  refine ⟨(d.Exec updateUserPasswordQuery [Value.str user.PasswordHash, Value.str user.Email] s).1, ?_⟩
  unfold UpdateUserPassword
  simp only []
  split <;> rfl

/-- C9: in VerifyOTP and in ResetPassword alike, the credential update of the account
store is called exactly when the verify of the OTP store returned `(true, no error)`
and hashing succeeded, and then with the email of the request and the hash the hasher
returned for the password of the request; when the verify returns `(false, no error)`
the answer is 401 `Invalid OTP` with no update; when the verify returns an error the
answer is 500 `Failed to verify OTP` with no update. -/
theorem credential_update_gated (d : Deps σ) (vinput : VerifyOTPInput)
    (rinput : ResetPasswordInput) (s : σ) :
    (((∃ u, Call.UpdateUserPassword u ∈ (VerifyOTP d (.ok vinput) s).trace) ↔
        (d.VerifyOTP vinput.Email vinput.OTP s).1 = (true, none) ∧
        (d.HashPassword vinput.Password (d.VerifyOTP vinput.Email vinput.OTP s).2).1.2 = none) ∧
      (∀ u, Call.UpdateUserPassword u ∈ (VerifyOTP d (.ok vinput) s).trace →
        u = ⟨vinput.Email,
          (d.HashPassword vinput.Password (d.VerifyOTP vinput.Email vinput.OTP s).2).1.1⟩) ∧
      (∀ q a e, Call.Exec q a e ∈ (VerifyOTP d (.ok vinput) s).trace →
        q = updateUserPasswordQuery ∧
        a = [Value.str
          (d.HashPassword vinput.Password (d.VerifyOTP vinput.Email vinput.OTP s).2).1.1,
          Value.str vinput.Email]) ∧
      ((d.VerifyOTP vinput.Email vinput.OTP s).1 = (false, none) →
        (VerifyOTP d (.ok vinput) s).val = ⟨401, [("error", "Invalid OTP")]⟩ ∧
        ∀ u, Call.UpdateUserPassword u ∉ (VerifyOTP d (.ok vinput) s).trace) ∧
      (∀ msg, (d.VerifyOTP vinput.Email vinput.OTP s).1.2 = some msg →
        (VerifyOTP d (.ok vinput) s).val = ⟨500, [("error", "Failed to verify OTP")]⟩ ∧
        ∀ u, Call.UpdateUserPassword u ∉ (VerifyOTP d (.ok vinput) s).trace)) ∧
    (((∃ u, Call.UpdateUserPassword u ∈ (ResetPassword d (.ok rinput) s).trace) ↔
        (d.VerifyOTP rinput.Email rinput.OTP s).1 = (true, none) ∧
        (d.HashPassword rinput.NewPassword (d.VerifyOTP rinput.Email rinput.OTP s).2).1.2 =
          none) ∧
      (∀ u, Call.UpdateUserPassword u ∈ (ResetPassword d (.ok rinput) s).trace →
        u = ⟨rinput.Email,
          (d.HashPassword rinput.NewPassword (d.VerifyOTP rinput.Email rinput.OTP s).2).1.1⟩) ∧
      (∀ q a e, Call.Exec q a e ∈ (ResetPassword d (.ok rinput) s).trace →
        q = updateUserPasswordQuery ∧
        a = [Value.str
          (d.HashPassword rinput.NewPassword (d.VerifyOTP rinput.Email rinput.OTP s).2).1.1,
          Value.str rinput.Email]) ∧
      ((d.VerifyOTP rinput.Email rinput.OTP s).1 = (false, none) →
        (ResetPassword d (.ok rinput) s).val = ⟨401, [("error", "Invalid OTP")]⟩ ∧
        ∀ u, Call.UpdateUserPassword u ∉ (ResetPassword d (.ok rinput) s).trace) ∧
      (∀ msg, (d.VerifyOTP rinput.Email rinput.OTP s).1.2 = some msg →
        (ResetPassword d (.ok rinput) s).val = ⟨500, [("error", "Failed to verify OTP")]⟩ ∧
        ∀ u, Call.UpdateUserPassword u ∉ (ResetPassword d (.ok rinput) s).trace)) := by
  constructor
  · obtain ⟨uerr, hutr⟩ := UpdateUserPassword_trace d
      ⟨vinput.Email,
        (d.HashPassword vinput.Password (d.VerifyOTP vinput.Email vinput.OTP s).2).1.1⟩
      (d.HashPassword vinput.Password (d.VerifyOTP vinput.Email vinput.OTP s).2).2
    rcases hv : (d.VerifyOTP vinput.Email vinput.OTP s).1 with ⟨valid, verr⟩
    have hv1 : (d.VerifyOTP vinput.Email vinput.OTP s).1.1 = valid := by rw [hv]
    have hv2 : (d.VerifyOTP vinput.Email vinput.OTP s).1.2 = verr := by rw [hv]
    cases verr with
    | some msg =>
      simp [VerifyOTP, hv1, hv2, StatusInternalServerError]
    | none =>
      cases valid with
      | false => simp [VerifyOTP, hv1, hv2, StatusUnauthorized]
      | true =>
        cases hh : (d.HashPassword vinput.Password (d.VerifyOTP vinput.Email vinput.OTP s).2).1.2 with
        | some msg => simp [VerifyOTP, hv1, hv2, hh]
        | none =>
          cases hu : (UpdateUserPassword d ⟨vinput.Email,
            (d.HashPassword vinput.Password (d.VerifyOTP vinput.Email vinput.OTP s).2).1.1⟩
            (d.HashPassword vinput.Password (d.VerifyOTP vinput.Email vinput.OTP s).2).2).val <;>
          (simp [VerifyOTP, hv1, hv2, hh, hu, hutr]; intro q a e hq ha _; exact ⟨hq, ha⟩)
  · obtain ⟨uerr, hutr⟩ := UpdateUserPassword_trace d
      ⟨rinput.Email,
        (d.HashPassword rinput.NewPassword (d.VerifyOTP rinput.Email rinput.OTP s).2).1.1⟩
      (d.HashPassword rinput.NewPassword (d.VerifyOTP rinput.Email rinput.OTP s).2).2
    rcases hv : (d.VerifyOTP rinput.Email rinput.OTP s).1 with ⟨valid, verr⟩
    have hv1 : (d.VerifyOTP rinput.Email rinput.OTP s).1.1 = valid := by rw [hv]
    have hv2 : (d.VerifyOTP rinput.Email rinput.OTP s).1.2 = verr := by rw [hv]
    cases verr with
    | some msg =>
      simp [ResetPassword, hv1, hv2, StatusInternalServerError]
    | none =>
      cases valid with
      | false => simp [ResetPassword, hv1, hv2, StatusUnauthorized]
      | true =>
        cases hh : (d.HashPassword rinput.NewPassword
            (d.VerifyOTP rinput.Email rinput.OTP s).2).1.2 with
        | some msg => simp [ResetPassword, hv1, hv2, hh]
        | none =>
          cases hu : (UpdateUserPassword d ⟨rinput.Email,
            (d.HashPassword rinput.NewPassword (d.VerifyOTP rinput.Email rinput.OTP s).2).1.1⟩
            (d.HashPassword rinput.NewPassword (d.VerifyOTP rinput.Email rinput.OTP s).2).2).val <;>
          (simp [ResetPassword, hv1, hv2, hh, hu, hutr]; intro q a e hq ha _; exact ⟨hq, ha⟩)

set_option maxRecDepth 10000 in
/-- With a live code for `alice`: a wrong code gives 401 and no update; the right code
updates her credential to the hash of the supplied password. -/
theorem credential_update_gated_witness :
    (VerifyOTP worldDeps (.ok ⟨"a@x.com", "999999", "secret2"⟩) world2).val =
      ⟨401, [("error", "Invalid OTP")]⟩ ∧
    (∃ u, Call.UpdateUserPassword u ∈
      (VerifyOTP worldDeps (.ok ⟨"a@x.com", "123456", "secret2"⟩) world2).trace) ∧
    Call.UpdateUserPassword ⟨"a@x.com", "hash:secret2"⟩ ∈
      (ResetPassword worldDeps (.ok ⟨"a@x.com", "123456", "secret2", "secret2"⟩) world2).trace :=
  ⟨((credential_update_gated worldDeps ⟨"a@x.com", "999999", "secret2"⟩
      ⟨"a@x.com", "123456", "secret2", "secret2"⟩ world2).1.2.2.2.1 rfl).1,
    (credential_update_gated worldDeps ⟨"a@x.com", "123456", "secret2"⟩
      ⟨"a@x.com", "123456", "secret2", "secret2"⟩ world2).1.1.2 ⟨rfl, rfl⟩,
    by decide⟩

/-! ## OTP expiry windows -/

/-- C10: every OTP Register saves is stored under the email of the request with a
time to live of 5 minutes, every OTP ForgotPassword saves is stored under the email
of the request with a time to live of 15 minutes, which is longer; ForgotPassword
saves an OTP only when the account lookup for that email succeeded, and otherwise
answers 404 without saving or sending an OTP. -/
theorem OTP_expiry_windows (d : Deps σ) (rinput : User) (finput : ForgotPasswordInput)
    (s : σ) :
    (∀ e o t r, Call.SaveOTP e o t r ∈ (Register d (.ok rinput) s).trace →
      e = rinput.Email ∧ t = 5 * Minute) ∧
    (∀ e o t r, Call.SaveOTP e o t r ∈ (ForgotPassword d (.ok finput) s).trace →
      e = finput.Email ∧ t = 15 * Minute ∧
      ∃ user, (GetUserByEmail d finput.Email s).val = .ok user) ∧
    (5 * Minute < 15 * Minute ∧ 5 * Minute = 300 * 1000000000 ∧
      15 * Minute = 900 * 1000000000) ∧
    (∀ err, (GetUserByEmail d finput.Email s).val = .error err →
      (ForgotPassword d (.ok finput) s).val = ⟨404, [("error", "User not found")]⟩ ∧
      (∀ e o t r, Call.SaveOTP e o t r ∉ (ForgotPassword d (.ok finput) s).trace) ∧
      (∀ e o r, Call.SendOTP e o r ∉ (ForgotPassword d (.ok finput) s).trace)) := by
  refine ⟨?_, ?_, ⟨by decide, by decide, by decide⟩, ?_⟩
  · intro e o t r hmem
    rcases Register_cases d rinput s with ⟨qerr, ⟨hv, ht⟩ | ⟨hash, ⟨msg, hv, ht⟩ |
      ⟨otp, ⟨msg, hv, ht⟩ | ⟨msg, hv, ht⟩ | ⟨id, ⟨dberr, hv, ht⟩ | ⟨hv, ht⟩⟩⟩⟩⟩
    all_goals
      rw [ht] at hmem
      simp at hmem
      try exact ⟨hmem.1, hmem.2.2.1⟩
  · obtain ⟨qerr, htr⟩ := GetUserByEmail_trace d finput.Email s
    intro e o t r hmem
    cases hlookup : (GetUserByEmail d finput.Email s).val with
    | error err => simp [ForgotPassword, hlookup, htr] at hmem
    | ok user =>
      refine ⟨?_, ?_, user, rfl⟩
      · cases hsave : (d.SaveOTP finput.Email
            (d.GenerateOTP (GetUserByEmail d finput.Email s).state).1 (15 * Minute)
            (d.GenerateOTP (GetUserByEmail d finput.Email s).state).2).1 with
        | some msg =>
          simp [ForgotPassword, hlookup, htr, hsave] at hmem
          exact hmem.1
        | none =>
          cases hsend : (d.SendOTP finput.Email
              (d.GenerateOTP (GetUserByEmail d finput.Email s).state).1
              (d.SaveOTP finput.Email
                (d.GenerateOTP (GetUserByEmail d finput.Email s).state).1 (15 * Minute)
                (d.GenerateOTP (GetUserByEmail d finput.Email s).state).2).2).1 <;>
          (simp [ForgotPassword, hlookup, htr, hsave, hsend] at hmem; exact hmem.1)
      · cases hsave : (d.SaveOTP finput.Email
            (d.GenerateOTP (GetUserByEmail d finput.Email s).state).1 (15 * Minute)
            (d.GenerateOTP (GetUserByEmail d finput.Email s).state).2).1 with
        | some msg =>
          simp [ForgotPassword, hlookup, htr, hsave] at hmem
          exact hmem.2.2.1
        | none =>
          cases hsend : (d.SendOTP finput.Email
              (d.GenerateOTP (GetUserByEmail d finput.Email s).state).1
              (d.SaveOTP finput.Email
                (d.GenerateOTP (GetUserByEmail d finput.Email s).state).1 (15 * Minute)
                (d.GenerateOTP (GetUserByEmail d finput.Email s).state).2).2).1 <;>
          (simp [ForgotPassword, hlookup, htr, hsave, hsend] at hmem; exact hmem.2.2.1)
  · obtain ⟨qerr, htr⟩ := GetUserByEmail_trace d finput.Email s
    intro err hlookup
    simp [ForgotPassword, hlookup, htr, StatusNotFound]

set_option maxRecDepth 10000 in
/-- The codes saved for `carol` by Register and for `alice` by ForgotPassword, and the
404 of ForgotPassword for an email without account. -/
theorem OTP_expiry_windows_witness :
    Call.SaveOTP "c@x.com" "123456" (5 * Minute) none ∈
      (Register worldDeps (.ok carol) world1).trace ∧
    Call.SaveOTP "a@x.com" "123456" (15 * Minute) none ∈
      (ForgotPassword worldDeps (.ok ⟨"a@x.com"⟩) world1).trace ∧
    (Register worldDeps (.ok carol) world1).state.otps = [⟨"c@x.com", "123456", 5 * Minute⟩] ∧
    (ForgotPassword worldDeps (.ok ⟨"a@x.com"⟩) world1).state.otps =
      [⟨"a@x.com", "123456", 15 * Minute⟩] ∧
    (ForgotPassword worldDeps (.ok ⟨"c@x.com"⟩) world1).val =
      ⟨404, [("error", "User not found")]⟩ ∧
    ("a@x.com" = "a@x.com" ∧ 15 * Minute = 15 * Minute ∧
      ∃ user, (GetUserByEmail worldDeps "a@x.com" world1).val = .ok user) :=
  ⟨by decide, by decide, by decide, by decide,
    ((OTP_expiry_windows worldDeps carol ⟨"c@x.com"⟩ world1).2.2.2
      "failed to get user by email: no rows in result set" rfl).1,
    (OTP_expiry_windows worldDeps carol ⟨"a@x.com"⟩ world1).2.1
      "a@x.com" "123456" (15 * Minute) none (by decide)⟩

/-! ## Validate -/

/-- A string passes `HasPrefix` exactly when it is the prefix followed by some rest. -/
theorem HasPrefix_iff (s pre : String) : HasPrefix s pre = true ↔ ∃ t, s = pre ++ t := by
  constructor
  · intro h
    simp only [HasPrefix, Bool.and_eq_true, decide_eq_true_eq, beq_iff_eq] at h
    refine ⟨⟨s.data.drop pre.length⟩, ?_⟩
    apply String.ext
    rw [String.data_append, ← h.2]
    exact (List.take_append_drop _ _).symm
  · rintro ⟨t, rfl⟩
    have hlen : pre.length = pre.data.length := rfl
    simp only [HasPrefix, Bool.and_eq_true, decide_eq_true_eq, beq_iff_eq, String.length_append,
      String.data_append]
    refine ⟨Nat.le_add_right _ _, ?_⟩
    rw [hlen, List.take_left]

/-- Trimming the prefix from the prefix followed by `t` leaves exactly `t`. -/
theorem TrimPrefix_append (pre t : String) : TrimPrefix (pre ++ t) pre = t := by
  have h : HasPrefix (pre ++ t) pre = true := (HasPrefix_iff _ _).2 ⟨t, rfl⟩
  have hlen : pre.length = pre.data.length := rfl
  simp only [TrimPrefix, h, if_true]
  apply String.ext
  show List.drop pre.length (pre ++ t).data = t.data
  rw [String.data_append, hlen, List.drop_left]

/-- C11: for every value `h` of the Authorization header, if `h` is empty or is not
`Bearer ` followed by some rest, Validate answers 401 and makes no call (the token
service is not asked); if `h` is `Bearer ` followed by `t`, the only call is Verify
with exactly `t`, and the answer is 200 with the identifier and role of the returned
claims when Verify succeeds and 401 when it fails. -/
theorem Validate_bearer (d : Deps σ) (s : σ) :
    (∀ h, (h = "" ∨ ¬ ∃ t, h = "Bearer " ++ t) →
      (Validate d h s).val = ⟨401, [("error", "Authorization header required")]⟩ ∧
      (Validate d h s).trace = [] ∧ (Validate d h s).state = s) ∧
    (∀ t, (Validate d ("Bearer " ++ t) s).trace = [Call.Verify t (d.Verify t s).1.2] ∧
      ((d.Verify t s).1.2 = none →
        (Validate d ("Bearer " ++ t) s).val =
          ⟨200, [("id", (d.Verify t s).1.1.UserID), ("role", (d.Verify t s).1.1.UserRole)]⟩) ∧
      (∀ msg, (d.Verify t s).1.2 = some msg →
        (Validate d ("Bearer " ++ t) s).val = ⟨401, [("error", "Invalid token")]⟩)) := by
  constructor
  · intro h hbad
    have hcond : h = "" ∨ ¬ HasPrefix h "Bearer " = true := by
      rcases hbad with he | hn
      · exact Or.inl he
      · exact Or.inr (fun hp => hn ((HasPrefix_iff _ _).1 hp))
    have hrun : Validate d h s =
        ⟨⟨StatusUnauthorized, [("error", "Authorization header required")]⟩, [], s⟩ := by
      unfold Validate
      rw [if_pos hcond]
    rw [hrun]
    exact ⟨rfl, rfl, rfl⟩
  · intro t
    have hp : HasPrefix ("Bearer " ++ t) "Bearer " = true := (HasPrefix_iff _ _).2 ⟨t, rfl⟩
    have hne : ("Bearer " ++ t) ≠ "" := by
      intro h
      have hlen := congrArg String.length h
      rw [String.length_append] at hlen
      have h7 : ("Bearer " : String).length = 7 := by decide
      have h0 : ("" : String).length = 0 := by decide
      omega
    have hcond : ¬ ("Bearer " ++ t = "" ∨ ¬ HasPrefix ("Bearer " ++ t) "Bearer " = true) := by
      rintro (h | h)
      · exact hne h
      · exact h hp
    have ht := TrimPrefix_append "Bearer " t
    have hrun : Validate d ("Bearer " ++ t) s =
        (match (d.Verify t s).1.2 with
          | some _ =>
            ⟨⟨StatusUnauthorized, [("error", "Invalid token")]⟩,
              [Call.Verify t (d.Verify t s).1.2], (d.Verify t s).2⟩
          | none =>
            ⟨⟨StatusOK, [("id", (d.Verify t s).1.1.UserID),
                ("role", (d.Verify t s).1.1.UserRole)]⟩,
              [Call.Verify t (d.Verify t s).1.2], (d.Verify t s).2⟩) := by
      unfold Validate
      rw [if_neg hcond]
      simp only [ht]
    rw [hrun]
    cases hv : (d.Verify t s).1.2 with
    | some msg => simp [StatusUnauthorized]
    | none => simp [StatusOK]

/-- The header `Bearer tok-a` is verified as `tok-a` and answered with the claims of
`alice`; of `Bearer Bearer tok-a` only the first prefix is removed; a lower-case
`bearer` is refused without a call. -/
theorem Validate_bearer_witness :
    (Validate worldDeps "Bearer tok-a" world3).val =
      ⟨200, [("id", "id-a"), ("role", "standard")]⟩ ∧
    (Validate worldDeps "Bearer Bearer tok-a" world3).trace =
      [Call.Verify "Bearer tok-a" (some "invalid token")] ∧
    (Validate worldDeps "bearer tok-a" world3).val =
      ⟨401, [("error", "Authorization header required")]⟩ ∧
    (Validate worldDeps "bearer tok-a" world3).trace = [] :=
  ⟨((Validate_bearer worldDeps world3).2 "tok-a").2.1 rfl,
    ((Validate_bearer worldDeps world3).2 "Bearer tok-a").1,
    by decide, by decide⟩

/-! ## GetAllUsers -/

/-- What the filter part of `GetAllUsers` builds, for every filter set: one
condition and one argument for each non-empty field, in the order Email, FullName,
Role, Status, Username; the argument is the value between two `%`; the placeholder
of the condition at position `i` (counted from 0) is `$i`. -/
theorem getAllUsersFilter_shape (userReq : models.GetAllUsers) :
    (getAllUsersFilter userReq).args =
      (([("email", userReq.Email), ("full_name", userReq.FullName), ("role", userReq.Role),
          ("status", userReq.Status), ("username", userReq.Username)].filter
            (fun c => decide (c.2 ≠ ""))).map (fun c => Value.str ("%" ++ c.2 ++ "%"))) ∧
    (getAllUsersFilter userReq).count =
      ([("email", userReq.Email), ("full_name", userReq.FullName), ("role", userReq.Role),
          ("status", userReq.Status), ("username", userReq.Username)].filter
            (fun c => decide (c.2 ≠ ""))).length ∧
    (getAllUsersFilter userReq).filter =
      String.join ((([("email", userReq.Email), ("full_name", userReq.FullName),
          ("role", userReq.Role), ("status", userReq.Status),
          ("username", userReq.Username)].filter (fun c => decide (c.2 ≠ ""))).enum).map
            (fun ic => " AND " ++ ic.2.1 ++ " ILIKE $" ++ toString ic.1)) := by
  by_cases h1 : userReq.Email = "" <;> by_cases h2 : userReq.FullName = "" <;>
    by_cases h3 : userReq.Role = "" <;> by_cases h4 : userReq.Status = "" <;>
    by_cases h5 : userReq.Username = ""
  all_goals
    simp only [getAllUsersFilter, h1, h2, h3, h4, h5, ne_eq, not_true_eq_false,
      not_false_eq_true, if_true, if_false, decide_True, decide_False, List.filter_cons,
      List.filter_nil, List.map_cons, List.map_nil, List.length_cons, List.length_nil,
      List.nil_append, List.cons_append, List.enum, List.enumFrom, Bool.false_eq_true]
  all_goals exact ⟨trivial, trivial, by decide⟩

/-- C12 fails on the code: for the filter set with only `Email` set to `a`, the one
condition built is ` AND email ILIKE $0` with one argument `%a%`, so the placeholder
is `$0`, not `$1`, and the statement handed to the database carries it. -/
theorem GetAllUsers_first_placeholder_is_zero (d : Deps σ) (s : σ) :
    getAllUsersFilter ⟨"a", "", "", "", ""⟩ =
      { filter := " AND email ILIKE $0", args := [Value.str "%a%"], count := 1 } ∧
    getAllUsersFilter ⟨"a", "", "", "", "c"⟩ =
      { filter := " AND email ILIKE $0 AND role ILIKE $1",
        args := [Value.str "%a%", Value.str "%c%"], count := 2 } ∧
    ∃ err, (GetAllUsers d ⟨"a", "", "", "", ""⟩ s).trace =
      [Call.GetAllUsers ⟨"a", "", "", "", ""⟩,
        Call.Query (getAllUsersQuery ++ " AND email ILIKE $0") [Value.str "%a%"] err] := by
  refine ⟨by decide, by decide, ?_⟩
  have hf : getAllUsersFilter ⟨"a", "", "", "", ""⟩ =
      { filter := " AND email ILIKE $0", args := [Value.str "%a%"], count := 1 } := by decide
  unfold GetAllUsers
  simp only [hf]
  cases hq : (d.Query (getAllUsersQuery ++ " AND email ILIKE $0") [Value.str "%a%"] s).1 with
  | error e => exact ⟨some e, rfl⟩
  | ok rows => exact ⟨none, rfl⟩

/-- The column-to-field mapping of the three scans, on the row of an account `u` in
select-list order (status before role): `GetUserByID` and `GetUserByEmail` give `u`
back; `GetAllUsers` gives `u` with `Status` and `Role` exchanged. -/
theorem scan_column_mapping (u : User) :
    scanUserByID (userRow u) = .ok u ∧
    scanUserByEmail (userRow u) = .ok u ∧
    scanGetAllUsers (userRow u) = .ok { u with Status := u.Role, Role := u.Status } :=
  ⟨rfl, rfl, rfl⟩

set_option maxRecDepth 10000 in
/-- C13 fails on the code: the listing of the accounts `alice` and `bob` returns `bob`,
whose row has status `pending_approval` and role `courier`, with `Status = courier`
and `Role = pending_approval`, while `GetUserByEmail` returns him as stored. -/
theorem GetAllUsers_exchanges_status_and_role :
    (GetAllUsers worldDeps ⟨"", "", "", "", ""⟩ world1).val =
      .ok [{ alice with Status := "standard", Role := "" },
        { bob with Status := "courier", Role := "pending_approval" }] ∧
    (GetUserByEmail worldDeps "b@x.com" world1).val = .ok bob ∧
    bob.Status = "pending_approval" ∧ bob.Role = "courier" ∧
    userRow bob = [.str "id-b", .str "bob", .str "b@x.com", .str "hash:secret1", .str "Bob",
      .time 0, .str "pending_approval", .str "courier", .time 0, .time 0] :=
  ⟨rfl, rfl, rfl, rfl, rfl⟩

end AuthFoodDelivery
